import Mathlib

/-!
Verification of the alert-evaluation core of the Crypto_weaver repository:
the restricted expression evaluator (`alerts/core/dsl_engine.py`, class
`DSLEngine`), the trigger state machines (`alerts/triggers/_init_.py`) and
the trigger manager (`alerts/triggers/manager.py`).

Modelling conventions, used throughout:
* Python numbers (ints, floats and bools used as numbers) are modelled as
  exact rationals `ℚ`.  Operations whose Python result is an irrational
  float (e.g. `sqrt` of a non-square, `log`, `exp`) are modelled as
  evaluation errors, with a comment at each site; no claim in this
  development depends on their values.
* Python exceptions are modelled with `Except String`; every `raise`
  becomes `.error`, and `try/except` becomes a `match` on the result.
* `datetime.utcnow()` is modelled by an explicit clock parameter
  (epoch seconds as `ℚ`, plus broken-down fields where the code reads
  them), threaded to every operation that the Python code makes read
  ambient time.
* Python dicts used as data (contexts, market snapshots) are modelled as
  association lists or structures of optional fields, read with the same
  defaults as the `.get` calls in the source.
-/

/-- The closed sum type of values the DSL evaluator produces: Python
numbers (modelled as `ℚ`), strings, booleans, `None`, lists, tuples,
dicts (association lists) and `datetime` objects (modelled by their epoch
seconds). -/
inductive Value where
  | num : ℚ → Value
  | str : String → Value
  | bool : Bool → Value
  | none : Value
  | vlist : List Value → Value
  | vtuple : List Value → Value
  | vdict : List (Value × Value) → Value
  | dt : ℚ → Value
deriving Repr

/-- Python truthiness (`bool(v)`): zero, the empty string, empty
collections and `None` are falsy; datetimes are truthy. -/
def truthy : Value → Bool
  | .num q => q != 0
  | .str s => s ≠ ""
  | .bool b => b
  | .none => false
  | .vlist l => !l.isEmpty
  | .vtuple l => !l.isEmpty
  | .vdict l => !l.isEmpty
  | .dt _ => true

/-- A Python value read as a number, when it is one: booleans coerce to
0/1 as in Python arithmetic and comparisons. -/
def toNumber : Value → Option ℚ
  | .num q => some q
  | .bool b => some (if b then 1 else 0)
  | _ => Option.none

mutual

/-- Python `==` on the values the evaluator builds.  Numbers and booleans
compare through their numeric value (`True == 1` in Python); lists and
tuples compare elementwise.  Dict comparison is modelled structurally
(same key order); Python's order-insensitive dict equality is not
exercised by any claim. -/
def valueEq : Value → Value → Bool
  | .str a, .str b => a = b
  | .none, .none => true
  | .vlist a, .vlist b => valueListEq a b
  | .vtuple a, .vtuple b => valueListEq a b
  | .vdict a, .vdict b => valuePairsEq a b
  | .dt a, .dt b => a = b
  | a, b =>
      match toNumber a, toNumber b with
      | some x, some y => x = y
      | _, _ => false

def valueListEq : List Value → List Value → Bool
  | [], [] => true
  | a :: as', b :: bs' => valueEq a b && valueListEq as' bs'
  | _, _ => false

def valuePairsEq : List (Value × Value) → List (Value × Value) → Bool
  | [], [] => true
  | (k, v) :: as', (k', v') :: bs' => valueEq k k' && valueEq v v' && valuePairsEq as' bs'
  | _, _ => false

end

/-- Python `<` on values: numeric (with bool coercion) or string-to-string;
any other combination raises `TypeError` in Python.  (Python also orders
sequences lexicographically; no claim exercises that, and it is modelled
as the same `TypeError` error path.) -/
def valueLt : Value → Value → Except String Bool
  | .str a, .str b => .ok (decide (a < b))
  | a, b =>
      match toNumber a, toNumber b with
      | some x, some y => .ok (decide (x < y))
      | _, _ => .error "TypeError: unorderable values"

/-- Python `<=` on values, same domain as `valueLt`. -/
def valueLe : Value → Value → Except String Bool
  | .str a, .str b => .ok (decide (a ≤ b))
  | a, b =>
      match toNumber a, toNumber b with
      | some x, some y => .ok (decide (x ≤ y))
      | _, _ => .error "TypeError: unorderable values"

/-- Substring test, modelling Python's `sub in s` on strings. -/
def strContains (s sub : String) : Bool :=
  s.toList.tails.any (fun t => sub.toList.isPrefixOf t)

/-- Python `in`: membership in a list/tuple (by `==`), key membership in a
dict, or substring test on strings. -/
def pyIn (x container : Value) : Except String Bool :=
  match container with
  | .vlist l => .ok (l.any (valueEq x))
  | .vtuple l => .ok (l.any (valueEq x))
  | .vdict l => .ok (l.any (fun kv => valueEq x kv.1))
  | .str s =>
      match x with
      | .str sub => .ok (strContains s sub)
      | _ => .error "TypeError: in requires string as left operand"
  | _ => .error "TypeError: argument is not iterable"

/-- Error-propagating bind on `Except String`, written as an explicit
match so that concrete evaluations reduce under `simp`. -/
def bindE {α β : Type} (x : Except String α) (f : α → Except String β) : Except String β :=
  match x with
  | .error e => .error e
  | .ok v => f v

/-- True exactly of `.error` results. -/
def isError {α : Type} : Except String α → Bool
  | .error _ => true
  | .ok _ => false


/-! ## Operators (`DSLEngine._init_operators` and the `evaluate` branches) -/

/-- `q` is an integral number (Python `int`; the int/float distinction of
Python is not retained by the rational model). -/
def isIntegral (q : ℚ) : Bool := q.den = 1

/-- Binary operator tags of `ast.BinOp`.  `lshift`/`rshift` exist in the
Python AST but are absent from the engine's operator table, so evaluating
them is the "Unsupported operator" error. -/
inductive BOp where
  | add | sub | mult | div | floorDiv | mod | pow
  | bitAnd | bitOr | bitXor | lshift | rshift
deriving Repr, DecidableEq

/-- Unary operator tags of `ast.UnaryOp`.  `ast.Not` is absent from the
operator table, so `not x` is the "Unsupported unary operator" error. -/
inductive UOp where
  | neg | pos | invert | notOp
deriving Repr, DecidableEq

/-- Comparison operator tags of `ast.Compare`.  `is`/`is not` fall into
the "Unsupported comparison" error branch. -/
inductive CmpOp where
  | eq | ne | lt | le | gt | ge | isIn | notIn | isOp | isNotOp
deriving Repr, DecidableEq

/-- `and` / `or` of `ast.BoolOp`. -/
inductive BoolK where
  | and | or
deriving Repr, DecidableEq

/-- `operator.add`: numeric addition (bools coerce), string/list/tuple
concatenation; anything else is Python's `TypeError`. -/
def pyAdd : Value → Value → Except String Value
  | .str a, .str b => .ok (.str (a ++ b))
  | .vlist a, .vlist b => .ok (.vlist (a ++ b))
  | .vtuple a, .vtuple b => .ok (.vtuple (a ++ b))
  | a, b =>
      match toNumber a, toNumber b with
      | some x, some y => .ok (.num (x + y))
      | _, _ => .error "TypeError: unsupported operand types for +"

/-- `operator.sub`: numeric only. -/
def pySub (a b : Value) : Except String Value :=
  match toNumber a, toNumber b with
  | some x, some y => .ok (.num (x - y))
  | _, _ => .error "TypeError: unsupported operand types for -"

/-- `operator.mul`: numeric product, or sequence repetition
(`s * n`, `n * s` with integral `n`; tuples behave like lists). -/
def pyMult : Value → Value → Except String Value
  | .str s, b =>
      match toNumber b with
      | some n =>
          if isIntegral n then .ok (.str (String.join (List.replicate n.num.toNat s)))
          else .error "TypeError: non-int sequence repetition"
      | _ => .error "TypeError: unsupported operand types for *"
  | .vlist l, b =>
      match toNumber b with
      | some n =>
          if isIntegral n then .ok (.vlist (List.flatten (List.replicate n.num.toNat l)))
          else .error "TypeError: non-int sequence repetition"
      | _ => .error "TypeError: unsupported operand types for *"
  | .vtuple l, b =>
      match toNumber b with
      | some n =>
          if isIntegral n then .ok (.vtuple (List.flatten (List.replicate n.num.toNat l)))
          else .error "TypeError: non-int sequence repetition"
      | _ => .error "TypeError: unsupported operand types for *"
  | a, .str s =>
      match toNumber a with
      | some n =>
          if isIntegral n then .ok (.str (String.join (List.replicate n.num.toNat s)))
          else .error "TypeError: non-int sequence repetition"
      | _ => .error "TypeError: unsupported operand types for *"
  | a, .vlist l =>
      match toNumber a with
      | some n =>
          if isIntegral n then .ok (.vlist (List.flatten (List.replicate n.num.toNat l)))
          else .error "TypeError: non-int sequence repetition"
      | _ => .error "TypeError: unsupported operand types for *"
  | a, .vtuple l =>
      match toNumber a with
      | some n =>
          if isIntegral n then .ok (.vtuple (List.flatten (List.replicate n.num.toNat l)))
          else .error "TypeError: non-int sequence repetition"
      | _ => .error "TypeError: unsupported operand types for *"
  | a, b =>
      match toNumber a, toNumber b with
      | some x, some y => .ok (.num (x * y))
      | _, _ => .error "TypeError: unsupported operand types for *"

/-- `operator.truediv`: exact rational division; division by zero is
Python's `ZeroDivisionError`. -/
def pyDiv (a b : Value) : Except String Value :=
  match toNumber a, toNumber b with
  | some x, some y =>
      if y = 0 then .error "ZeroDivisionError: division by zero"
      else .ok (.num (x / y))
  | _, _ => .error "TypeError: unsupported operand types for /"

/-- `operator.floordiv`: `⌊x / y⌋`. -/
def pyFloorDiv (a b : Value) : Except String Value :=
  match toNumber a, toNumber b with
  | some x, some y =>
      if y = 0 then .error "ZeroDivisionError: division by zero"
      else .ok (.num (⌊x / y⌋ : ℤ))
  | _, _ => .error "TypeError: unsupported operand types for //"

/-- `operator.mod`: Python remainder, `x - y * ⌊x / y⌋` (sign follows the
divisor). -/
def pyMod (a b : Value) : Except String Value :=
  match toNumber a, toNumber b with
  | some x, some y =>
      if y = 0 then .error "ZeroDivisionError: modulo by zero"
      else .ok (.num (x - y * (⌊x / y⌋ : ℤ)))
  | _, _ => .error "TypeError: unsupported operand types for %"

/-- `operator.pow` with an integral exponent (`0 ** negative` is Python's
`ZeroDivisionError`).  A non-integral exponent gives an irrational float
in Python and is modelled as an error (see the module comment). -/
def pyPow (a b : Value) : Except String Value :=
  match toNumber a, toNumber b with
  | some x, some y =>
      if isIntegral y then
        if x = 0 ∧ y.num < 0 then .error "ZeroDivisionError: zero to a negative power"
        else .ok (.num (x ^ y.num))
      else .error "irrational power not modelled"
  | _, _ => .error "TypeError: unsupported operand types for **"

/-- Shared precondition of the bitwise operators: both operands integral
(Python raises `TypeError` on floats). -/
def pyBitwise (f : ℤ → ℤ → ℤ) (a b : Value) : Except String Value :=
  match toNumber a, toNumber b with
  | some x, some y =>
      if isIntegral x ∧ isIntegral y then .ok (.num (f x.num y.num))
      else .error "TypeError: bitwise operator on non-integer"
  | _, _ => .error "TypeError: unsupported operand types for bitwise operator"

/-- Dispatch of the `ast.BinOp` branch through the operator table built by
`_init_operators`; `lshift`/`rshift` are the table-miss error. -/
def applyBinOp : BOp → Value → Value → Except String Value
  | .add => pyAdd
  | .sub => pySub
  | .mult => pyMult
  | .div => pyDiv
  | .floorDiv => pyFloorDiv
  | .mod => pyMod
  | .pow => pyPow
  | .bitAnd => pyBitwise Int.land
  | .bitOr => pyBitwise Int.lor
  | .bitXor => pyBitwise Int.xor
  | .lshift => fun _ _ => .error "Unsupported operator"
  | .rshift => fun _ _ => .error "Unsupported operator"

/-- Dispatch of the `ast.UnaryOp` branch: `operator.neg`, `operator.pos`,
`operator.invert` (`~x = -(x+1)`, integral only); `ast.Not` is the
table-miss error. -/
def applyUnaryOp : UOp → Value → Except String Value
  | .neg => fun a =>
      match toNumber a with
      | some x => .ok (.num (-x))
      | _ => .error "TypeError: bad operand type for unary -"
  | .pos => fun a =>
      match toNumber a with
      | some x => .ok (.num x)
      | _ => .error "TypeError: bad operand type for unary +"
  | .invert => fun a =>
      match toNumber a with
      | some x =>
          if isIntegral x then .ok (.num (-(x + 1)))
          else .error "TypeError: bad operand type for unary ~"
      | _ => .error "TypeError: bad operand type for unary ~"
  | .notOp => fun _ => .error "Unsupported unary operator"

/-- One pairwise comparison of the `ast.Compare` branch. -/
def applyCmpOp : CmpOp → Value → Value → Except String Bool
  | .eq => fun a b => .ok (valueEq a b)
  | .ne => fun a b => .ok (!valueEq a b)
  | .lt => fun a b => valueLt a b
  | .le => fun a b => valueLe a b
  | .gt => fun a b => valueLt b a
  | .ge => fun a b => valueLe b a
  | .isIn => fun a b => pyIn a b
  | .notIn => fun a b => bindE (pyIn a b) fun r => .ok (!r)
  | .isOp => fun _ _ => .error "Unsupported comparison"
  | .isNotOp => fun _ _ => .error "Unsupported comparison"

/-! ## DSL function library (`DSLEngine._init_functions` and the
`_calculate_*` indicator methods) -/

/-- Read a required numeric argument. -/
def asNum (v : Value) : Except String ℚ :=
  match toNumber v with
  | some q => .ok q
  | _ => .error "TypeError: a number is required"

/-- Read a required integral argument (Python `int`). -/
def asInt (v : Value) : Except String ℤ :=
  match toNumber v with
  | some q => if isIntegral q then .ok q.num else .error "TypeError: an integer is required"
  | _ => .error "TypeError: an integer is required"

/-- Read a list/tuple argument as its element list. -/
def asList (v : Value) : Except String (List Value) :=
  match v with
  | .vlist l => .ok l
  | .vtuple l => .ok l
  | _ => .error "TypeError: argument is not iterable"

/-- Read a list/tuple of numbers. -/
def asNums (v : Value) : Except String (List ℚ) :=
  bindE (asList v) fun l =>
    l.foldr (fun x acc => bindE (asNum x) fun q => bindE acc fun qs => .ok (q :: qs)) (.ok [])

/-- Read a required string argument. -/
def asStr (v : Value) : Except String String :=
  match v with
  | .str s => .ok s
  | _ => .error "TypeError: a string is required"

/-- Python `l[i:]` on a list (negative start indices count from the
end, out-of-range starts clamp). -/
def pySliceFrom {α : Type} (l : List α) (i : ℤ) : List α :=
  if 0 ≤ i then l.drop (min i.toNat l.length)
  else l.drop (l.length - min (-i).toNat l.length)

/-- The last `n` elements (`l[-n:]` for `n ≥ 1`), used by the trailing
windows of the indicator functions. -/
def lastN {α : Type} (l : List α) (n : ℤ) : List α := pySliceFrom l (-n)

/-- `np.mean` / `sum(x)/len(x)` over a nonempty rational list (callers
guard emptiness as the source does). -/
def qMean (l : List ℚ) : ℚ := l.sum / l.length

/-- `np.var`: population variance, mean of squared deviations. -/
def qVar (l : List ℚ) : ℚ := qMean (l.map (fun x => (x - qMean l) ^ 2))

/-- Exact rational square root when it exists; irrational square roots
are float-valued in Python and modelled as errors. -/
def ratSqrt (q : ℚ) : Except String ℚ :=
  let n := q.num.toNat
  let d := q.den
  let sn := Nat.sqrt n
  let sd := Nat.sqrt d
  if q < 0 then .error "math domain error"
  else if sn * sn = n ∧ sd * sd = d then .ok ((sn : ℚ) / (sd : ℚ))
  else .error "irrational square root not modelled"

/-- Python 3 `round`: round half to even (banker's rounding). -/
def bankersRound (q : ℚ) : ℤ :=
  let f := ⌊q⌋
  let r := q - f
  if r < 1/2 then f
  else if 1/2 < r then f + 1
  else if f % 2 = 0 then f else f + 1

/-- Insertion into a sorted rational list, for `statistics.median`. -/
def insertSorted (x : ℚ) : List ℚ → List ℚ
  | [] => [x]
  | y :: ys => if x ≤ y then x :: y :: ys else y :: insertSorted x ys

/-- Insertion sort, for `statistics.median`. -/
def sortQ (l : List ℚ) : List ℚ := l.foldr insertSorted []

/-- `DSLEngine._calculate_sma`: average of the last `period` values;
shorter input returns the last element (or 0 when empty). -/
def calcSma (prices : List ℚ) (period : ℤ) : Except String ℚ :=
  if prices.length < period then
    .ok (prices.getLast?.getD 0)
  else
    let recent := lastN prices period
    if period = 0 then .error "ZeroDivisionError: division by zero"
    else .ok (recent.sum / (period : ℚ))

/-- `DSLEngine._calculate_ema`: seed at the first element, then
exponential smoothing with multiplier `2/(period+1)` over the whole
series; shorter-than-period input returns the last element. -/
def calcEma (prices : List ℚ) (period : ℤ) : Except String ℚ :=
  match prices with
  | [] => .ok 0
  | p0 :: rest =>
      if prices.length < period then .ok (prices.getLast?.getD 0)
      else if (period : ℚ) + 1 = 0 then .error "ZeroDivisionError: division by zero"
      else
        let m := 2 / ((period : ℚ) + 1)
        .ok (rest.foldl (fun ema p => (p - ema) * m + ema) p0)

/-- Consecutive differences (`np.diff`). -/
def qDiff : List ℚ → List ℚ
  | [] => []
  | [_] => []
  | a :: b :: rest => (b - a) :: qDiff (b :: rest)

/-- `DSLEngine._calculate_rsi`: Wilder-style RSI over the last `period`
deltas; 50 on insufficient data, 100 when the average loss is zero. -/
def calcRsi (prices : List ℚ) (period : ℤ) : Except String ℚ :=
  if prices.length < period + 1 then .ok 50
  else
    let deltas := qDiff prices
    let gains := deltas.map (fun d => if 0 < d then d else 0)
    let losses := deltas.map (fun d => if d < 0 then -d else 0)
    let avgGain := qMean (lastN gains period)
    let avgLoss := qMean (lastN losses period)
    if avgLoss = 0 then .ok 100
    else
      let rs := avgGain / avgLoss
      .ok (100 - 100 / (1 + rs))

/-- `DSLEngine._calculate_macd`: `ema fast - ema slow`, with the signal
and histogram fields fixed at zero (documented simplification in the
source); all-zero dict when the series is shorter than `slow`. -/
def calcMacd (prices : List ℚ) (fast slow : ℤ) : Except String Value :=
  if prices.length < slow then
    .ok (.vdict [(.str "macd", .num 0), (.str "signal", .num 0), (.str "histogram", .num 0)])
  else
    bindE (calcEma prices fast) fun emaFast =>
    bindE (calcEma prices slow) fun emaSlow =>
    .ok (.vdict [(.str "macd", .num (emaFast - emaSlow)),
                 (.str "signal", .num 0), (.str "histogram", .num 0)])

/-- `DSLEngine._calculate_bollinger_bands`: flat band at the last price
on short input, otherwise `sma ± std_dev · std` over the last `period`
values.  The standard deviation is a square root, hence error-modelled
when irrational. -/
def calcBollinger (prices : List ℚ) (period : ℤ) (stdDev : ℚ) : Except String Value :=
  if prices.length < period then
    let sma := prices.getLast?.getD 0
    .ok (.vdict [(.str "upper", .num sma), (.str "middle", .num sma), (.str "lower", .num sma)])
  else if period = 0 then .error "ZeroDivisionError: division by zero"
  else
    let recent := lastN prices period
    let sma := recent.sum / (period : ℚ)
    let variance := (recent.map (fun x => (x - sma) ^ 2)).sum / (period : ℚ)
    bindE (ratSqrt variance) fun std =>
    .ok (.vdict [(.str "upper", .num (sma + stdDev * std)),
                 (.str "middle", .num sma),
                 (.str "lower", .num (sma - stdDev * std))])

/-- `DSLEngine._calculate_atr`: 0 when any series is shorter than
`period`; otherwise the mean of the last `period` true ranges, where the
true range at `i ∈ 1..len(highs)-1` is the max of high-low,
|high - prevClose| and |low - prevClose|, and an out-of-range read on a
shorter `lows`/`closes` list is Python's `IndexError`. -/
def calcAtr (highs lows closes : List ℚ) (period : ℤ) : Except String ℚ :=
  if highs.length < period ∨ lows.length < period ∨ closes.length < period then .ok 0
  else
    let idxs := List.range highs.length
    let trs := (idxs.drop 1).foldr
      (fun i acc =>
        bindE acc fun tl =>
        match highs[i]?, lows[i]?, closes[i-1]? with
        | some h, some l, some cPrev =>
            .ok ((max (h - l) (max |h - cPrev| |l - cPrev|)) :: tl)
        | _, _, _ => .error "IndexError: list index out of range")
      (.ok [])
    bindE trs fun trValues =>
    if period = 0 then .error "ZeroDivisionError: division by zero"
    else .ok ((lastN trValues period).sum / (period : ℚ))

/-- `DSLEngine._calculate_returns`: `[0]` on short input, otherwise the
last 10 period-over-period relative changes; a zero base price is
Python's `ZeroDivisionError`. -/
def calcReturns (prices : List ℚ) (period : ℤ) : Except String (List ℚ) :=
  if prices.length < period + 1 then .ok [0]
  else
    let idxs := (List.range prices.length).drop period.toNat
    let rets := idxs.foldr
      (fun i acc =>
        bindE acc fun tl =>
        match prices[i]?, prices[i - period.toNat]? with
        | some pi', some pBase =>
            if pBase = 0 then .error "ZeroDivisionError: float division by zero"
            else .ok (((pi' - pBase) / pBase) :: tl)
        | _, _ => .error "IndexError: list index out of range")
      (.ok [])
    bindE rets fun rs => .ok (lastN rs 10)

/-- `DSLEngine._calculate_volatility`: 0 on short input or fewer than two
returns, otherwise `np.std` of the 1-period returns (a square root,
error-modelled when irrational). -/
def calcVolatility (prices : List ℚ) (period : ℤ) : Except String ℚ :=
  if prices.length < period + 1 then .ok 0
  else
    bindE (calcReturns prices 1) fun rets =>
    if rets.length < 2 then .ok 0
    else ratSqrt (qVar rets)

/-- `DSLEngine._calculate_sharpe_ratio`: 0 on short input or zero
standard deviation; the `√365` annualisation makes every other result
irrational, hence error-modelled. -/
def calcSharpe (returns : List ℚ) (riskFree : ℚ) : Except String ℚ :=
  if returns.length < 2 then .ok 0
  else
    bindE (ratSqrt (qVar returns)) fun stdRet =>
    if stdRet = 0 then .ok 0
    else
      bindE (ratSqrt 365) fun ann =>
      .ok ((qMean returns - riskFree / 365) / stdRet * ann)

/-- `DSLEngine._calculate_max_drawdown`: running-peak drawdown; a zero
peak divides by zero as in Python. -/
def calcMaxDrawdown (prices : List ℚ) : Except String ℚ :=
  match prices with
  | [] => .ok 0
  | [_] => .ok 0
  | p0 :: _ =>
      let step := fun (acc : Except String (ℚ × ℚ)) (price : ℚ) =>
        bindE acc fun pm =>
        let peak := if pm.1 < price then price else pm.1
        if peak = 0 then .error "ZeroDivisionError: float division by zero"
        else
          let dd := (peak - price) / peak
          .ok (peak, if pm.2 < dd then dd else pm.2)
      bindE (prices.foldl step (.ok (p0, 0))) fun pm => .ok pm.2

/-! ## Function registry (`DSLEngine._init_functions`) -/

/-- Python `v[idx]` (the `ast.Subscript` branch): integer indexing with
negative indices on lists/tuples/strings, key lookup on dicts
(`KeyError` when absent, `TypeError` on unhashable keys). -/
def pySubscript (v idx : Value) : Except String Value :=
  match v with
  | .vlist l =>
      bindE (asInt idx) fun n =>
      let i := if n < 0 then (l.length : ℤ) + n else n
      match l[i.toNat]? with
      | some x => if 0 ≤ i then .ok x else .error "IndexError: list index out of range"
      | _ => .error "IndexError: list index out of range"
  | .vtuple l =>
      bindE (asInt idx) fun n =>
      let i := if n < 0 then (l.length : ℤ) + n else n
      match l[i.toNat]? with
      | some x => if 0 ≤ i then .ok x else .error "IndexError: tuple index out of range"
      | _ => .error "IndexError: tuple index out of range"
  | .str s =>
      bindE (asInt idx) fun n =>
      let cs := s.toList
      let i := if n < 0 then (cs.length : ℤ) + n else n
      match cs[i.toNat]? with
      | some c => if 0 ≤ i then .ok (.str (String.mk [c])) else .error "IndexError: string index out of range"
      | _ => .error "IndexError: string index out of range"
  | .vdict d =>
      match idx with
      | .vlist _ => .error "TypeError: unhashable type"
      | .vdict _ => .error "TypeError: unhashable type"
      | _ =>
          match d.find? (fun kv => valueEq kv.1 idx) with
          | some kv => .ok kv.2
          | _ => .error "KeyError"
  | _ => .error "TypeError: object is not subscriptable"

/-- Python `l[a:b]` slice normalisation and extraction. -/
def pySliceRange {α : Type} (l : List α) (a b : ℤ) : List α :=
  let norm := fun (i : ℤ) => if 0 ≤ i then min i.toNat l.length else l.length - min (-i).toNat l.length
  (l.drop (norm a)).take (norm b - norm a)

/-- A registered DSL function: the parameter list (name and optional
default) plus the implementation.  The three time functions close over
`datetime.utcnow()` in the source and therefore take the ambient clock;
`min`/`max` are variadic builtins bound without a fixed signature. -/
inductive DSLFunc where
  | pureFn (params : List (String × Option Value)) (impl : List Value → Except String Value)
  | clockedFn (params : List (String × Option Value)) (impl : ℚ → List Value → Except String Value)
  | variadicFn (impl : List Value → List (String × Value) → Except String Value)

/-- Keyword-argument lookup. -/
def lookupKw (kwargs : List (String × Value)) (n : String) : Option Value :=
  (kwargs.find? (fun p => p.1 = n)).map (·.2)

/-- Bind remaining parameters once the leading ones were consumed by
positional arguments. -/
def bindParamsGo (kwargs : List (String × Value)) :
    List (String × Option Value) → List Value → Except String (List Value)
  | [], _ => .ok []
  | (n, _) :: rest, a :: as' =>
      if (lookupKw kwargs n).isSome then .error ("TypeError: multiple values for argument " ++ n)
      else bindE (bindParamsGo kwargs rest as') fun vs => .ok (a :: vs)
  | (n, d) :: rest, [] =>
      match lookupKw kwargs n with
      | some v => bindE (bindParamsGo kwargs rest []) fun vs => .ok (v :: vs)
      | _ =>
          match d with
          | some v => bindE (bindParamsGo kwargs rest []) fun vs => .ok (v :: vs)
          | _ => .error ("TypeError: missing required argument: " ++ n)

/-- Python call binding for a fixed signature: positional arguments fill
the leading parameters, keywords the rest, defaults the remainder;
excess positional arguments, unknown keywords, duplicates and missing
required parameters are `TypeError`s as in Python. -/
def bindParams (spec : List (String × Option Value)) (args : List Value)
    (kwargs : List (String × Value)) : Except String (List Value) :=
  if spec.length < args.length then .error "TypeError: too many positional arguments"
  else if kwargs.any (fun kv => (spec.find? (fun p => p.1 = kv.1)).isNone) then
    .error "TypeError: unexpected keyword argument"
  else bindParamsGo kwargs spec args

/-- `abs`. -/
def fnAbs : List Value → Except String Value
  | [a] => bindE (asNum a) fun x => .ok (.num |x|)
  | _ => .error "TypeError: bad arity"

/-- `round`: Python 3 banker's rounding, with an optional digit count. -/
def fnRound : List Value → Except String Value
  | [a, nd] =>
      bindE (asNum a) fun x =>
      match nd with
      | .none => .ok (.num (bankersRound x))
      | _ =>
          bindE (asInt nd) fun k =>
          let scale : ℚ := (10 : ℚ) ^ k
          .ok (.num ((bankersRound (x * scale) : ℚ) / scale))
  | _ => .error "TypeError: bad arity"

/-- `math.floor`. -/
def fnFloor : List Value → Except String Value
  | [a] => bindE (asNum a) fun x => .ok (.num (⌊x⌋ : ℤ))
  | _ => .error "TypeError: bad arity"

/-- `math.ceil`. -/
def fnCeil : List Value → Except String Value
  | [a] => bindE (asNum a) fun x => .ok (.num (⌈x⌉ : ℤ))
  | _ => .error "TypeError: bad arity"

/-- `math.sqrt` (irrational results error-modelled). -/
def fnSqrt : List Value → Except String Value
  | [a] => bindE (asNum a) fun x => bindE (ratSqrt x) fun r => .ok (.num r)
  | _ => .error "TypeError: bad arity"

/-- `math.log`: domain error on nonpositive input; `log 1 = 0` is the
only rationally-representable case retained by the model (see the module
comment on irrational floats). -/
def fnLog : List Value → Except String Value
  | [a, _base] =>
      bindE (asNum a) fun x =>
      if x ≤ 0 then .error "math domain error"
      else if x = 1 then .ok (.num 0)
      else .error "irrational logarithm not modelled"
  | _ => .error "TypeError: bad arity"

/-- `math.log10`, same modelling as `fnLog`. -/
def fnLog10 : List Value → Except String Value
  | [a] =>
      bindE (asNum a) fun x =>
      if x ≤ 0 then .error "math domain error"
      else if x = 1 then .ok (.num 0)
      else .error "irrational logarithm not modelled"
  | _ => .error "TypeError: bad arity"

/-- `math.exp`: `exp 0 = 1` is the only rationally-representable case. -/
def fnExp : List Value → Except String Value
  | [a] =>
      bindE (asNum a) fun x =>
      if x = 0 then .ok (.num 1)
      else .error "irrational exponential not modelled"
  | _ => .error "TypeError: bad arity"

/-- Builtin `pow`, two- or three-argument form (the modular form follows
Python's divisor-sign remainder; a negative exponent with modulus is
error-modelled). -/
def fnPow : List Value → Except String Value
  | [a, b, m] =>
      match m with
      | .none => pyPow a b
      | _ =>
          bindE (asInt a) fun x =>
          bindE (asInt b) fun y =>
          bindE (asInt m) fun md =>
          if md = 0 then .error "ValueError: pow() 3rd argument cannot be 0"
          else if y < 0 then .error "modular inverse not modelled"
          else
            let p : ℚ := ((x ^ y.toNat : ℤ) : ℚ)
            .ok (.num (p - (md : ℚ) * (⌊p / (md : ℚ)⌋ : ℤ)))
  | _ => .error "TypeError: bad arity"

/-- Fold for `min` (first minimal element wins, as in Python). -/
def foldMinVs : Value → List Value → Except String Value
  | cur, [] => .ok cur
  | cur, w :: ws =>
      bindE (valueLt w cur) fun b => foldMinVs (if b then w else cur) ws

/-- Fold for `max` (first maximal element wins, as in Python). -/
def foldMaxVs : Value → List Value → Except String Value
  | cur, [] => .ok cur
  | cur, w :: ws =>
      bindE (valueLt cur w) fun b => foldMaxVs (if b then w else cur) ws

/-- Builtin `min`: one iterable argument or several plain arguments; the
`key=`/`default=` keywords of the builtin are not modelled. -/
def fnMin (args : List Value) (kwargs : List (String × Value)) : Except String Value :=
  if !kwargs.isEmpty then .error "min keyword arguments not modelled"
  else
    match args with
    | [] => .error "TypeError: min expected at least 1 argument"
    | [x] =>
        bindE (asList x) fun l =>
        match l with
        | [] => .error "ValueError: min() arg is an empty sequence"
        | v :: vs => foldMinVs v vs
    | v :: vs => foldMinVs v vs

/-- Builtin `max`, mirror of `fnMin`. -/
def fnMax (args : List Value) (kwargs : List (String × Value)) : Except String Value :=
  if !kwargs.isEmpty then .error "max keyword arguments not modelled"
  else
    match args with
    | [] => .error "TypeError: max expected at least 1 argument"
    | [x] =>
        bindE (asList x) fun l =>
        match l with
        | [] => .error "ValueError: max() arg is an empty sequence"
        | v :: vs => foldMaxVs v vs
    | v :: vs => foldMaxVs v vs

/-- Builtin `sum` over a numeric sequence. -/
def fnSum : List Value → Except String Value
  | [it, start] =>
      bindE (asNums it) fun l =>
      bindE (asNum start) fun s => .ok (.num (s + l.sum))
  | _ => .error "TypeError: bad arity"

/-- The registry's `mean` lambda: `sum(x)/len(x) if x else 0`, so every
falsy argument (empty list, 0, "") yields 0 rather than an error. -/
def fnMean : List Value → Except String Value
  | [x] =>
      if truthy x then
        bindE (asNums x) fun l => .ok (.num (l.sum / (l.length : ℚ)))
      else .ok (.num 0)
  | _ => .error "TypeError: bad arity"

/-- `statistics.median`. -/
def fnMedian : List Value → Except String Value
  | [x] =>
      bindE (asNums x) fun l =>
      match sortQ l with
      | [] => .error "statistics.StatisticsError: no median for empty data"
      | sorted@(s0 :: _) =>
          let n := sorted.length
          if n % 2 = 1 then .ok (.num (sorted.getD (n / 2) s0))
          else .ok (.num ((sorted.getD (n / 2 - 1) s0 + sorted.getD (n / 2) s0) / 2))
  | _ => .error "TypeError: bad arity"

/-- The registry's `std` lambda: `np.std(x) if len(x) > 1 else 0` (the
square root is error-modelled when irrational). -/
def fnStd : List Value → Except String Value
  | [x] =>
      bindE (asList x) fun l =>
      if 1 < l.length then
        bindE (asNums x) fun ns =>
        bindE (ratSqrt (qVar ns)) fun r => .ok (.num r)
      else .ok (.num 0)
  | _ => .error "TypeError: bad arity"

/-- The registry's `var` lambda: `np.var(x) if len(x) > 1 else 0`. -/
def fnVar : List Value → Except String Value
  | [x] =>
      bindE (asList x) fun l =>
      if 1 < l.length then
        bindE (asNums x) fun ns => .ok (.num (qVar ns))
      else .ok (.num 0)
  | _ => .error "TypeError: bad arity"

/-- `now`: `datetime.utcnow()`, i.e. the ambient clock. -/
def fnNow (clock : ℚ) : List Value → Except String Value
  | [] => .ok (.dt clock)
  | _ => .error "TypeError: bad arity"

/-- `timestamp`: `datetime.utcnow().timestamp()`. -/
def fnTimestamp (clock : ℚ) : List Value → Except String Value
  | [] => .ok (.num clock)
  | _ => .error "TypeError: bad arity"

/-- `days_ago`: `utcnow() - timedelta(days=days)`. -/
def fnDaysAgo (clock : ℚ) : List Value → Except String Value
  | [d] => bindE (asNum d) fun x => .ok (.dt (clock - x * 86400))
  | _ => .error "TypeError: bad arity"

/-- `sma`. -/
def fnSma : List Value → Except String Value
  | [p, per] =>
      bindE (asNums p) fun l =>
      bindE (asInt per) fun k =>
      bindE (calcSma l k) fun q => .ok (.num q)
  | _ => .error "TypeError: bad arity"

/-- `ema`. -/
def fnEma : List Value → Except String Value
  | [p, per] =>
      bindE (asNums p) fun l =>
      bindE (asInt per) fun k =>
      bindE (calcEma l k) fun q => .ok (.num q)
  | _ => .error "TypeError: bad arity"

/-- `rsi`. -/
def fnRsi : List Value → Except String Value
  | [p, per] =>
      bindE (asNums p) fun l =>
      bindE (asInt per) fun k =>
      bindE (calcRsi l k) fun q => .ok (.num q)
  | _ => .error "TypeError: bad arity"

/-- `macd` (the `signal` parameter is bound but unused by the body, as in
the source's simplified implementation). -/
def fnMacd : List Value → Except String Value
  | [p, fast, slow, _signal] =>
      bindE (asNums p) fun l =>
      bindE (asInt fast) fun kf =>
      bindE (asInt slow) fun ks =>
      calcMacd l kf ks
  | _ => .error "TypeError: bad arity"

/-- `bollinger`. -/
def fnBollinger : List Value → Except String Value
  | [p, per, sd] =>
      bindE (asNums p) fun l =>
      bindE (asInt per) fun k =>
      bindE (asNum sd) fun s =>
      calcBollinger l k s
  | _ => .error "TypeError: bad arity"

/-- `atr`. -/
def fnAtr : List Value → Except String Value
  | [h, lo, c, per] =>
      bindE (asNums h) fun hs =>
      bindE (asNums lo) fun ls =>
      bindE (asNums c) fun cs =>
      bindE (asInt per) fun k =>
      bindE (calcAtr hs ls cs k) fun q => .ok (.num q)
  | _ => .error "TypeError: bad arity"

/-- `lower` (`str.lower`). -/
def fnLower : List Value → Except String Value
  | [s] => bindE (asStr s) fun t => .ok (.str t.toLower)
  | _ => .error "TypeError: bad arity"

/-- `upper` (`str.upper`). -/
def fnUpper : List Value → Except String Value
  | [s] => bindE (asStr s) fun t => .ok (.str t.toUpper)
  | _ => .error "TypeError: bad arity"

/-- `contains`: the registry lambda `sub in s`. -/
def fnContains : List Value → Except String Value
  | [s, sub] => bindE (pyIn sub s) fun b => .ok (.bool b)
  | _ => .error "TypeError: bad arity"

/-- `starts_with`: `s.startswith(p)`. -/
def fnStartsWith : List Value → Except String Value
  | [s, p] =>
      bindE (asStr s) fun t =>
      bindE (asStr p) fun u => .ok (.bool (t.startsWith u))
  | _ => .error "TypeError: bad arity"

/-- `len`. -/
def fnLen : List Value → Except String Value
  | [x] =>
      match x with
      | .vlist l => .ok (.num l.length)
      | .vtuple l => .ok (.num l.length)
      | .vdict l => .ok (.num l.length)
      | .str s => .ok (.num s.length)
      | _ => .error "TypeError: object has no len()"
  | _ => .error "TypeError: bad arity"

/-- `first`: the registry lambda `x[0] if x else None`. -/
def fnFirst : List Value → Except String Value
  | [x] => if truthy x then pySubscript x (.num 0) else .ok .none
  | _ => .error "TypeError: bad arity"

/-- `last`: the registry lambda `x[-1] if x else None`. -/
def fnLast : List Value → Except String Value
  | [x] => if truthy x then pySubscript x (.num (-1)) else .ok .none
  | _ => .error "TypeError: bad arity"

/-- `slice`: the registry lambda `x[start:end]`. -/
def fnSlice : List Value → Except String Value
  | [x, a, b] =>
      bindE (asInt a) fun i =>
      bindE (asInt b) fun j =>
      match x with
      | .vlist l => .ok (.vlist (pySliceRange l i j))
      | .vtuple l => .ok (.vtuple (pySliceRange l i j))
      | .str s => .ok (.str (String.mk (pySliceRange s.toList i j)))
      | _ => .error "TypeError: object is not subscriptable"
  | _ => .error "TypeError: bad arity"

/-- `returns`. -/
def fnReturns : List Value → Except String Value
  | [p, per] =>
      bindE (asNums p) fun l =>
      bindE (asInt per) fun k =>
      bindE (calcReturns l k) fun rs => .ok (.vlist (rs.map Value.num))
  | _ => .error "TypeError: bad arity"

/-- `volatility`. -/
def fnVolatility : List Value → Except String Value
  | [p, per] =>
      bindE (asNums p) fun l =>
      bindE (asInt per) fun k =>
      bindE (calcVolatility l k) fun q => .ok (.num q)
  | _ => .error "TypeError: bad arity"

/-- `sharpe` (the default risk-free rate 0.02 is taken at its decimal
value, per the rational model of float literals). -/
def fnSharpe : List Value → Except String Value
  | [r, rf] =>
      bindE (asNums r) fun l =>
      bindE (asNum rf) fun q =>
      bindE (calcSharpe l q) fun s => .ok (.num s)
  | _ => .error "TypeError: bad arity"

/-- `max_drawdown`. -/
def fnMaxDrawdown : List Value → Except String Value
  | [p] =>
      bindE (asNums p) fun l =>
      bindE (calcMaxDrawdown l) fun q => .ok (.num q)
  | _ => .error "TypeError: bad arity"

/-- The function registry of `_init_functions`, in source order.  Exactly
the three time functions close over the ambient clock. -/
def functions : List (String × DSLFunc) :=
  [("abs", .pureFn [("x", Option.none)] fnAbs),
   ("round", .pureFn [("number", Option.none), ("ndigits", some .none)] fnRound),
   ("floor", .pureFn [("x", Option.none)] fnFloor),
   ("ceil", .pureFn [("x", Option.none)] fnCeil),
   ("sqrt", .pureFn [("x", Option.none)] fnSqrt),
   ("log", .pureFn [("x", Option.none), ("base", some .none)] fnLog),
   ("log10", .pureFn [("x", Option.none)] fnLog10),
   ("exp", .pureFn [("x", Option.none)] fnExp),
   ("pow", .pureFn [("base", Option.none), ("exp", Option.none), ("mod", some .none)] fnPow),
   ("min", .variadicFn fnMin),
   ("max", .variadicFn fnMax),
   ("sum", .pureFn [("iterable", Option.none), ("start", some (.num 0))] fnSum),
   ("mean", .pureFn [("x", Option.none)] fnMean),
   ("median", .pureFn [("data", Option.none)] fnMedian),
   ("std", .pureFn [("x", Option.none)] fnStd),
   ("var", .pureFn [("x", Option.none)] fnVar),
   ("now", .clockedFn [] fnNow),
   ("timestamp", .clockedFn [] fnTimestamp),
   ("days_ago", .clockedFn [("days", Option.none)] fnDaysAgo),
   ("sma", .pureFn [("prices", Option.none), ("period", some (.num 20))] fnSma),
   ("ema", .pureFn [("prices", Option.none), ("period", some (.num 20))] fnEma),
   ("rsi", .pureFn [("prices", Option.none), ("period", some (.num 14))] fnRsi),
   ("macd", .pureFn [("prices", Option.none), ("fast", some (.num 12)),
                     ("slow", some (.num 26)), ("signal", some (.num 9))] fnMacd),
   ("bollinger", .pureFn [("prices", Option.none), ("period", some (.num 20)),
                          ("std_dev", some (.num 2))] fnBollinger),
   ("atr", .pureFn [("highs", Option.none), ("lows", Option.none), ("closes", Option.none),
                    ("period", some (.num 14))] fnAtr),
   ("lower", .pureFn [("s", Option.none)] fnLower),
   ("upper", .pureFn [("s", Option.none)] fnUpper),
   ("contains", .pureFn [("s", Option.none), ("sub", Option.none)] fnContains),
   ("starts_with", .pureFn [("s", Option.none), ("p", Option.none)] fnStartsWith),
   ("len", .pureFn [("x", Option.none)] fnLen),
   ("first", .pureFn [("x", Option.none)] fnFirst),
   ("last", .pureFn [("x", Option.none)] fnLast),
   ("slice", .pureFn [("x", Option.none), ("start", Option.none), ("end", Option.none)] fnSlice),
   ("returns", .pureFn [("prices", Option.none), ("period", some (.num 1))] fnReturns),
   ("volatility", .pureFn [("prices", Option.none), ("period", some (.num 20))] fnVolatility),
   ("sharpe", .pureFn [("returns", Option.none), ("risk_free_rate", some (.num (1/50)))] fnSharpe),
   ("max_drawdown", .pureFn [("prices", Option.none)] fnMaxDrawdown)]

/-- The keyword table of `_init_keywords`.  `math.pi` and `math.e` are
the exact rationals denoted by the IEEE-754 doubles. -/
def keywords : List (String × Value) :=
  [("true", .bool true),
   ("false", .bool false),
   ("null", .none),
   ("pi", .num (884279719003555 / 281474976710656)),
   ("e", .num (6121026514868073 / 2251799813685248))]

/-- Apply a registered function to evaluated arguments (the body of the
`try` around `func(*args, **kwargs)`). -/
def applyDSLFunc (clock : ℚ) (d : DSLFunc) (args : List Value)
    (kwargs : List (String × Value)) : Except String Value :=
  match d with
  | .pureFn spec impl => bindE (bindParams spec args kwargs) impl
  | .clockedFn spec impl => bindE (bindParams spec args kwargs) (impl clock)
  | .variadicFn impl => impl args kwargs

/-- Prefix an error message, modelling the re-raise wrappers of the
source (`Error calling function …`, `Evaluation error at node …`). -/
def wrapErr {α : Type} (pre : String) : Except String α → Except String α
  | .error e => .error (pre ++ e)
  | .ok v => .ok v

/-! ## Expression trees and `DSLEngine.evaluate` -/

/-- The expression AST handled by `DSLEngine.evaluate`.  The first twelve
constructors are the allow-listed node kinds (`ast.Constant`/`Num`/`Str`,
`Name`, `List`, `Tuple`, `Dict`, `BinOp`, `UnaryOp`, `Compare`, `BoolOp`,
`Call`, `IfExp`, `Subscript`); `attribute` models `ast.Attribute`, the
representative node kind outside the allow-list, which falls through to
the "Unsupported AST node type" error. -/
inductive Expr where
  | constant : Value → Expr
  | name : String → Expr
  | listE : List Expr → Expr
  | tupleE : List Expr → Expr
  | dictE : List (Expr × Expr) → Expr
  | binOp : BOp → Expr → Expr → Expr
  | unaryOp : UOp → Expr → Expr
  | compare : Expr → List (CmpOp × Expr) → Expr
  | boolOp : BoolK → List Expr → Expr
  | call : Expr → List Expr → List (String × Expr) → Expr
  | ifExp : Expr → Expr → Expr → Expr
  | subscript : Expr → Expr → Expr
  | attribute : Expr → String → Expr
deriving Repr

/-- The Python class name of a node, used in the wrapper message of the
catch-all `except` of `evaluate`. -/
def nodeName : Expr → String
  | .constant _ => "Constant"
  | .name _ => "Name"
  | .listE _ => "List"
  | .tupleE _ => "Tuple"
  | .dictE _ => "Dict"
  | .binOp _ _ _ => "BinOp"
  | .unaryOp _ _ => "UnaryOp"
  | .compare _ _ => "Compare"
  | .boolOp _ _ => "BoolOp"
  | .call _ _ _ => "Call"
  | .ifExp _ _ _ => "IfExp"
  | .subscript _ _ => "Subscript"
  | .attribute _ _ => "Attribute"

/-- The evaluation context: the `context` dict passed to `evaluate`. -/
abbrev Ctx : Type := List (String × Value)

/-- Insertion into the dict being built by the `ast.Dict` branch: Python
dict-comprehension semantics (unhashable keys raise, duplicate keys keep
the first position and take the last value). -/
def dictInsert (d : List (Value × Value)) (k v : Value) : Except String (List (Value × Value)) :=
  match k with
  | .vlist _ => .error "TypeError: unhashable type"
  | .vdict _ => .error "TypeError: unhashable type"
  | _ =>
      if d.any (fun kv => valueEq kv.1 k) then
        .ok (d.map (fun kv => if valueEq kv.1 k then (kv.1, v) else kv))
      else .ok (d ++ [(k, v)])

mutual

/-- `DSLEngine.evaluate`: every branch runs inside a `try` whose
`except` re-raises with the node kind in the message, so each recursion
level wraps errors from below. -/
def evaluate (ctx : Ctx) (clock : ℚ) (e : Expr) : Except String Value :=
  wrapErr ("Evaluation error at node " ++ nodeName e ++ ": ") (evalCore ctx clock e)
termination_by (sizeOf e, 1)

/-- The branch dispatch of `DSLEngine.evaluate`. -/
def evalCore (ctx : Ctx) (clock : ℚ) : Expr → Except String Value
  | .constant v => .ok v
  | .name id =>
      match keywords.lookup id with
      | some v => .ok v
      | _ => .ok (((List.lookup id ctx : Option Value)).getD (.num 0))
  | .listE es => bindE (evalElts ctx clock es) fun vs => .ok (.vlist vs)
  | .tupleE es => bindE (evalElts ctx clock es) fun vs => .ok (.vtuple vs)
  | .dictE ps => bindE (evalDict ctx clock [] ps) fun d => .ok (.vdict d)
  | .binOp op a b =>
      bindE (evaluate ctx clock a) fun l =>
      bindE (evaluate ctx clock b) fun r =>
      applyBinOp op l r
  | .unaryOp op a =>
      bindE (evaluate ctx clock a) fun v =>
      applyUnaryOp op v
  | .compare l ops =>
      bindE (evaluate ctx clock l) fun lv =>
      bindE (evalChain ctx clock true lv ops) fun b => .ok (.bool b)
  | .boolOp .and es => bindE (evalAnd ctx clock es) fun b => .ok (.bool b)
  | .boolOp .or es => bindE (evalOr ctx clock es) fun b => .ok (.bool b)
  | .call f args kwargs =>
      match f with
      | .name fname =>
          match functions.lookup fname with
          | some d =>
              bindE (evalElts ctx clock args) fun argv =>
              bindE (evalKw ctx clock kwargs) fun kwv =>
              wrapErr ("Error calling function " ++ fname ++ ": ")
                (applyDSLFunc clock d argv kwv)
          | _ => .error ("Unknown function: " ++ fname)
      | _ => .error "AttributeError: object has no attribute id"
  | .ifExp t b o =>
      bindE (evaluate ctx clock t) fun tv =>
      if truthy tv then evaluate ctx clock b else evaluate ctx clock o
  | .subscript v i =>
      bindE (evaluate ctx clock v) fun vv =>
      bindE (evaluate ctx clock i) fun iv =>
      pySubscript vv iv
  | .attribute _ _ => .error "Unsupported AST node type"
termination_by e => (sizeOf e, 0)

/-- Element list of the `ast.List`/`ast.Tuple` branches and the
positional arguments of `ast.Call`, evaluated left to right. -/
def evalElts (ctx : Ctx) (clock : ℚ) : List Expr → Except String (List Value)
  | [] => .ok []
  | e :: rest =>
      bindE (evaluate ctx clock e) fun v =>
      bindE (evalElts ctx clock rest) fun vs => .ok (v :: vs)
termination_by es => (sizeOf es, 0)

/-- The `ast.Dict` comprehension: key then value per pair, inserting as
it goes. -/
def evalDict (ctx : Ctx) (clock : ℚ) (acc : List (Value × Value)) :
    List (Expr × Expr) → Except String (List (Value × Value))
  | [] => .ok acc
  | (k, v) :: rest =>
      bindE (evaluate ctx clock k) fun kv =>
      bindE (evaluate ctx clock v) fun vv =>
      bindE (dictInsert acc kv vv) fun acc' =>
      evalDict ctx clock acc' rest
termination_by ps => (sizeOf ps, 0)

/-- The keyword arguments of `ast.Call`, evaluated after the positional
ones. -/
def evalKw (ctx : Ctx) (clock : ℚ) : List (String × Expr) → Except String (List (String × Value))
  | [] => .ok []
  | (n, e) :: rest =>
      bindE (evaluate ctx clock e) fun v =>
      bindE (evalKw ctx clock rest) fun vs => .ok ((n, v) :: vs)
termination_by ks => (sizeOf ks, 0)

/-- The loop of the `ast.Compare` branch: every comparator expression is
evaluated, and `result = result and (left <op> right)` applies the
pairwise comparison only while the accumulated result is still true
(Python's `and` short-circuits the application, not the evaluation). -/
def evalChain (ctx : Ctx) (clock : ℚ) (res : Bool) (left : Value) :
    List (CmpOp × Expr) → Except String Bool
  | [] => .ok res
  | (op, rhs) :: rest =>
      bindE (evaluate ctx clock rhs) fun rv =>
      if res then
        bindE (applyCmpOp op left rv) fun b =>
        evalChain ctx clock b rv rest
      else evalChain ctx clock false rv rest
termination_by ops => (sizeOf ops, 0)

/-- `all(evaluate(v) for v in values)`: stops at the first falsy value. -/
def evalAnd (ctx : Ctx) (clock : ℚ) : List Expr → Except String Bool
  | [] => .ok true
  | e :: rest =>
      bindE (evaluate ctx clock e) fun v =>
      if truthy v then evalAnd ctx clock rest else .ok false
termination_by es => (sizeOf es, 0)

/-- `any(evaluate(v) for v in values)`: stops at the first truthy value. -/
def evalOr (ctx : Ctx) (clock : ℚ) : List Expr → Except String Bool
  | [] => .ok false
  | e :: rest =>
      bindE (evaluate ctx clock e) fun v =>
      if truthy v then .ok true else evalOr ctx clock rest
termination_by es => (sizeOf es, 0)

end

mutual

/-- The tree is built only from the allow-listed node kinds of the
evaluator (no `attribute` node anywhere, including in called-function
position). -/
def allowedB : Expr → Bool
  | .constant _ => true
  | .name _ => true
  | .listE es => allowedElts es
  | .tupleE es => allowedElts es
  | .dictE ps => allowedPairs ps
  | .binOp _ a b => allowedB a && allowedB b
  | .unaryOp _ a => allowedB a
  | .compare l ops => allowedB l && allowedChain ops
  | .boolOp _ es => allowedElts es
  | .call f args kwargs => allowedB f && allowedElts args && allowedKw kwargs
  | .ifExp t b o => allowedB t && allowedB b && allowedB o
  | .subscript v i => allowedB v && allowedB i
  | .attribute _ _ => false
termination_by e => (sizeOf e, 0)

def allowedElts : List Expr → Bool
  | [] => true
  | e :: rest => allowedB e && allowedElts rest
termination_by es => (sizeOf es, 0)

def allowedPairs : List (Expr × Expr) → Bool
  | [] => true
  | (k, v) :: rest => allowedB k && allowedB v && allowedPairs rest
termination_by ps => (sizeOf ps, 0)

def allowedChain : List (CmpOp × Expr) → Bool
  | [] => true
  | (_, e) :: rest => allowedB e && allowedChain rest
termination_by ops => (sizeOf ops, 0)

def allowedKw : List (String × Expr) → Bool
  | [] => true
  | (_, e) :: rest => allowedB e && allowedKw rest
termination_by ks => (sizeOf ks, 0)

end

/-- The three registry entries that read the ambient clock
(`datetime.utcnow()`), from `_init_functions`. -/
def timeNames : List String := ["now", "timestamp", "days_ago"]

mutual

/-- No evaluated position of the tree calls one of the three clock-reading
registry functions.  A call whose function position is not a plain name
errors before evaluating its arguments, so it is clock-independent
regardless of them. -/
def timeFreeB : Expr → Bool
  | .constant _ => true
  | .name _ => true
  | .listE es => timeFreeElts es
  | .tupleE es => timeFreeElts es
  | .dictE ps => timeFreePairs ps
  | .binOp _ a b => timeFreeB a && timeFreeB b
  | .unaryOp _ a => timeFreeB a
  | .compare l ops => timeFreeB l && timeFreeChain ops
  | .boolOp _ es => timeFreeElts es
  | .call f args kwargs =>
      match f with
      | .name fname => !timeNames.contains fname && timeFreeElts args && timeFreeKw kwargs
      | _ => true
  | .ifExp t b o => timeFreeB t && timeFreeB b && timeFreeB o
  | .subscript v i => timeFreeB v && timeFreeB i
  | .attribute _ _ => true
termination_by e => (sizeOf e, 0)

def timeFreeElts : List Expr → Bool
  | [] => true
  | e :: rest => timeFreeB e && timeFreeElts rest
termination_by es => (sizeOf es, 0)

def timeFreePairs : List (Expr × Expr) → Bool
  | [] => true
  | (k, v) :: rest => timeFreeB k && timeFreeB v && timeFreePairs rest
termination_by ps => (sizeOf ps, 0)

def timeFreeChain : List (CmpOp × Expr) → Bool
  | [] => true
  | (_, e) :: rest => timeFreeB e && timeFreeChain rest
termination_by ops => (sizeOf ops, 0)

def timeFreeKw : List (String × Expr) → Bool
  | [] => true
  | (_, e) :: rest => timeFreeB e && timeFreeKw rest
termination_by ks => (sizeOf ks, 0)

end

/-! ## Trigger framework (`alerts/triggers/_init_.py`) -/

/-- The wall clock as the trigger layer reads it: `datetime.utcnow()`
with the broken-down fields used by `TimeBasedTrigger` (epoch seconds,
hour, minute, weekday). -/
structure PyTime where
  epoch : ℚ
  hour : ℕ
  minute : ℕ
  weekday : ℕ
deriving Repr, DecidableEq

/-- The market-data dict consumed by the trigger `check` methods, as the
fields they `.get`; a missing field is `Option.none` and takes the
default written at each `.get` site. -/
structure MarketData where
  price : Option ℚ := Option.none
  volume : Option ℚ := Option.none
  volumeHistory : Option (List ℚ) := Option.none
  rsi : Option ℚ := Option.none
  macd : Option ℚ := Option.none
  macdSignal : Option ℚ := Option.none
  bbUpper : Option ℚ := Option.none
  bbLower : Option ℚ := Option.none
  symbol : Option String := Option.none
deriving Repr

/-- The state every trigger inherits from `BaseTrigger.__init__`:
`last_triggered` (an optional timestamp) and `trigger_count`. -/
structure BaseState where
  lastTriggered : Option ℚ := Option.none
  triggerCount : ℕ := 0
deriving Repr, DecidableEq

/-- The `value` parameter of `TimeBasedTrigger`, per condition kind: a
time of day, a (start, end) window, or a weekday index. -/
inductive TimeValue where
  | specificTime (hour minute : ℕ)
  | window (startHour startMinute endHour endMinute : ℕ)
  | dayOfWeek (d : ℕ)
deriving Repr, DecidableEq

/-- The trigger variants of `alerts/triggers/_init_.py`, each carrying
the base state plus its own instance attributes.  `base` is the abstract
`BaseTrigger` itself, whose `check` raises `NotImplementedError`; it
carries its `trigger_type` string.  The `params` dict of the source is
represented by the typed fields.  `customDSL` holds the parsed form of
its `dsl_expression` (the string parser is Python's `ast` module,
external to this model). -/
inductive Trigger where
  | base (s : BaseState) (ttype : String)
  | priceAbove (s : BaseState) (threshold : ℚ)
  | volumeSpike (s : BaseState) (multiplier : ℚ) (lookback : ℕ)
  | rsiTrigger (s : BaseState) (threshold : ℚ) (condition : String)
  | bollinger (s : BaseState) (direction : String) (confirmationPeriod : ℕ)
      (confirmationCount : ℕ)
  | macdCross (s : BaseState) (crossoverType : String) (prevMacd prevSignal : Option ℚ)
  | timeBased (s : BaseState) (value : TimeValue)
  | customDSL (s : BaseState) (expr : Expr)
  | composite (s : BaseState) (operator : String) (children : List Trigger)
deriving Repr

/-- The base state of any trigger variant. -/
def Trigger.baseState : Trigger → BaseState
  | .base s _ => s
  | .priceAbove s _ => s
  | .volumeSpike s _ _ => s
  | .rsiTrigger s _ _ => s
  | .bollinger s _ _ _ => s
  | .macdCross s _ _ _ => s
  | .timeBased s _ => s
  | .customDSL s _ => s
  | .composite s _ _ => s

/-- `trigger_count` of any variant. -/
def Trigger.triggerCount (t : Trigger) : ℕ := t.baseState.triggerCount

/-- `last_triggered` of any variant. -/
def Trigger.lastTriggered (t : Trigger) : Option ℚ := t.baseState.lastTriggered

/-- `trigger_type.value`, as assigned by each variant's `__init__`. -/
def Trigger.typeName : Trigger → String
  | .base _ tt => tt
  | .priceAbove _ _ => "price_above"
  | .volumeSpike _ _ _ => "volume_spike"
  | .rsiTrigger _ _ cond => if cond = "below" then "rsi_oversold" else "rsi_overbought"
  | .bollinger _ _ _ _ => "bollinger_breakout"
  | .macdCross _ _ _ _ => "macd_crossover"
  | .timeBased _ _ => "scheduled_time"
  | .customDSL _ _ => "custom_dsl"
  | .composite _ _ _ => "composite_trigger"

/-- The `confirmation_count` attribute, present only on the Bollinger
variant. -/
def Trigger.confirmationCountOf : Trigger → Option ℕ
  | .bollinger _ _ _ c => some c
  | _ => Option.none

/-- The `prev_macd`/`prev_signal` seeds, present only on the MACD
variant. -/
def Trigger.macdSeedsOf : Trigger → Option (Option ℚ × Option ℚ)
  | .macdCross _ _ pm ps => some (pm, ps)
  | _ => Option.none

/-- The `sub_triggers` list, present only on the composite variant. -/
def Trigger.childrenOf : Trigger → Option (List Trigger)
  | .composite _ _ cs => some cs
  | _ => Option.none

/-- `BaseTrigger.reset`, the only `reset` in the hierarchy (no subclass
overrides it): `self.last_triggered = None` on whatever instance it is
called, every other attribute untouched. -/
def Trigger.reset : Trigger → Trigger
  | .base s tt => .base { s with lastTriggered := Option.none } tt
  | .priceAbove s thr => .priceAbove { s with lastTriggered := Option.none } thr
  | .volumeSpike s m lb => .volumeSpike { s with lastTriggered := Option.none } m lb
  | .rsiTrigger s thr c => .rsiTrigger { s with lastTriggered := Option.none } thr c
  | .bollinger s d p c => .bollinger { s with lastTriggered := Option.none } d p c
  | .macdCross s ct pm ps => .macdCross { s with lastTriggered := Option.none } ct pm ps
  | .timeBased s v => .timeBased { s with lastTriggered := Option.none } v
  | .customDSL s e => .customDSL { s with lastTriggered := Option.none } e
  | .composite s op cs => .composite { s with lastTriggered := Option.none } op cs

/-- The two assignments every trigger performs when it fires:
`self.last_triggered = datetime.utcnow()` and `self.trigger_count += 1`. -/
def fireBase (s : BaseState) (now : PyTime) : BaseState :=
  { lastTriggered := some now.epoch, triggerCount := s.triggerCount + 1 }

/-- The DSL evaluation context that `parse_dsl` builds from the market
data: the present fields, plus the derived indicator entries when a
nonempty `prices` series is present (the MarketData model is the
snapshot dict restricted to the fields the engine reads). -/
def mdContext (md : MarketData) (prices : Option (List ℚ)) : Except String Ctx :=
  let opt := fun (n : String) (v : Option Value) =>
    match v with
    | some x => [(n, x)]
    | _ => ([] : Ctx)
  let base : Ctx :=
    opt "price" (md.price.map Value.num) ++
    opt "volume" (md.volume.map Value.num) ++
    opt "volume_history" (md.volumeHistory.map (fun l => .vlist (l.map Value.num))) ++
    opt "rsi" (md.rsi.map Value.num) ++
    opt "macd" (md.macd.map Value.num) ++
    opt "macd_signal" (md.macdSignal.map Value.num) ++
    opt "bb_upper" (md.bbUpper.map Value.num) ++
    opt "bb_lower" (md.bbLower.map Value.num) ++
    opt "symbol" (md.symbol.map Value.str) ++
    opt "prices" (prices.map (fun l => .vlist (l.map Value.num)))
  match prices with
  | some ps =>
      if 0 < ps.length then
        bindE (calcSma ps 20) fun sma20 =>
        bindE (calcEma ps 12) fun ema12 =>
        bindE (calcRsi ps 14) fun rsi14 =>
        bindE (calcBollinger ps 20 2) fun bb =>
        .ok (base ++ [("sma_20", .num sma20), ("ema_12", .num ema12),
                      ("rsi_14", .num rsi14), ("bb", bb)])
      else .ok base
  | _ => .ok base

mutual

/-- The `check` method of each trigger variant, returning whether it
fired together with the updated trigger.  `BaseTrigger.check` raises
`NotImplementedError`; it performs no mutation before raising, and no
other variant mutates before a raising operation either, so an errored
`check` leaves the trigger as it was. -/
def Trigger.check (now : PyTime) (md : MarketData) : Trigger → Except String (Bool × Trigger)
  | .base _ _ => .error "NotImplementedError: Subclasses must implement check()"
  | .priceAbove s thr =>
      let price := md.price.getD 0
      if thr < price then .ok (true, .priceAbove (fireBase s now) thr)
      else .ok (false, .priceAbove s thr)
  | .volumeSpike s mult lookback =>
      let vol := md.volume.getD 0
      let hist := md.volumeHistory.getD []
      if hist.length < lookback then .ok (false, .volumeSpike s mult lookback)
      else
        let window := lastN hist (lookback : ℤ)
        if window.isEmpty then
          -- np.mean([]) is NaN and every comparison with NaN is false
          .ok (false, .volumeSpike s mult lookback)
        else
          if qMean window * mult < vol then .ok (true, .volumeSpike (fireBase s now) mult lookback)
          else .ok (false, .volumeSpike s mult lookback)
  | .rsiTrigger s thr cond =>
      let cur := md.rsi.getD 50
      let fired := (cond = "below" ∧ cur < thr) ∨ (cond = "above" ∧ thr < cur)
      if fired then .ok (true, .rsiTrigger (fireBase s now) thr cond)
      else .ok (false, .rsiTrigger s thr cond)
  | .bollinger s dir period count =>
      let price := md.price.getD 0
      let upper := md.bbUpper.getD (price * (11 / 10))
      let lower := md.bbLower.getD (price * (9 / 10))
      let count' :=
        if dir = "upper" ∧ upper < price then count + 1
        else if dir = "lower" ∧ price < lower then count + 1
        else 0
      if period ≤ count' then .ok (true, .bollinger (fireBase s now) dir period 0)
      else .ok (false, .bollinger s dir period count')
  | .macdCross s ct pm ps =>
      let curM := md.macd.getD 0
      let curS := md.macdSignal.getD 0
      match pm, ps with
      | Option.none, _ => .ok (false, .macdCross s ct (some curM) (some curS))
      | _, Option.none => .ok (false, .macdCross s ct (some curM) (some curS))
      | some p, some q =>
          let fired := (ct = "bullish" ∧ p ≤ q ∧ curS < curM) ∨
                       (ct = "bearish" ∧ q ≤ p ∧ curM < curS)
          if fired then .ok (true, .macdCross (fireBase s now) ct (some curM) (some curS))
          else .ok (false, .macdCross s ct (some curM) (some curS))
  | .timeBased s v =>
      let matched :=
        match v with
        | .specificTime h m => now.hour == h && now.minute == m
        | .window sh sm eh em =>
            decide (sh * 60 + sm ≤ now.hour * 60 + now.minute) &&
            decide (now.hour * 60 + now.minute ≤ eh * 60 + em)
        | .dayOfWeek d => now.weekday == d
      let cool :=
        match s.lastTriggered with
        | Option.none => true
        | some last => decide ((300 : ℚ) < now.epoch - last)
      if matched && cool then .ok (true, .timeBased (fireBase s now) v)
      else .ok (false, .timeBased s v)
  | .customDSL s e =>
      -- parse_dsl inside try/except: any error yields False
      let result :=
        match mdContext md Option.none with
        | .error _ => false
        | .ok ctx =>
            match evaluate ctx now.epoch e with
            | .error _ => false
            | .ok v => truthy v
      if result then .ok (true, .customDSL (fireBase s now) e)
      else .ok (false, .customDSL s e)
  | .composite s op children =>
      bindE (Trigger.checkList now md children) fun res =>
      let bools := res.map Prod.fst
      let kids := res.map Prod.snd
      let fired :=
        if op = "AND" then bools.all id
        else if op = "OR" then bools.any id
        else if op = "NAND" then !bools.all id
        else if op = "NOR" then !bools.any id
        else false
      if fired then .ok (true, .composite (fireBase s now) op kids)
      else .ok (false, .composite s op kids)
termination_by t => (sizeOf t, 0)

/-- The list comprehension of `CompositeTrigger.check`: every child is
checked, in order, before the combinator is applied; a raising child
propagates (and is then caught by the manager). -/
def Trigger.checkList (now : PyTime) (md : MarketData) :
    List Trigger → Except String (List (Bool × Trigger))
  | [] => .ok []
  | t :: ts =>
      bindE (t.check now md) fun r =>
      bindE (Trigger.checkList now md ts) fun rs => .ok (r :: rs)
termination_by ts => (sizeOf ts, 0)

end

/-! ## Trigger manager (`alerts/triggers/manager.py`) -/

/-- The record appended per firing by `check_triggers` (`trigger_info`):
trigger id and type, the snapshot summary fields, and the timestamp.
The `params` dict of the source record is carried by the trigger's own
typed fields and not duplicated here. -/
structure FiredEvent where
  triggerId : String
  triggerType : String
  price : Option ℚ
  volume : Option ℚ
  symbol : String
  timestamp : ℚ
deriving Repr, DecidableEq

/-- The event record built for a firing trigger (`symbol` defaults to
"unknown" as in the source). -/
def mkEvent (id : String) (t : Trigger) (md : MarketData) (now : PyTime) : FiredEvent :=
  { triggerId := id, triggerType := t.typeName, price := md.price,
    volume := md.volume, symbol := md.symbol.getD "unknown", timestamp := now.epoch }

/-- The history append of `check_triggers`: push the event, then truncate
to the most recent `bound` records when over the bound
(`self.trigger_history[-self.max_history_size:]`). -/
def histAppend (bound : ℕ) (h : List FiredEvent) (ev : FiredEvent) : List FiredEvent :=
  let h' := h ++ [ev]
  if bound < h'.length then h'.drop (h'.length - bound) else h'

/-- `TriggerManager` state: the id-to-trigger registry (a dict iterated
in insertion order, modelled as an association list), the bounded
history, and `max_history_size` (1000 at construction). -/
structure TriggerManager where
  triggers : List (String × Trigger)
  history : List FiredEvent := []
  maxHistory : ℕ := 1000

/-- The loop body of `TriggerManager.check_triggers`: each trigger's
`check` runs inside `try/except`; an exception is logged and the loop
continues with that trigger treated as not fired (the modelled raising
path, `BaseTrigger.check`, mutates nothing before raising, so the
registry keeps the trigger as it was).  A firing appends the event to
the bounded history at the moment of firing.  Returns (fired events,
updated registry, updated history). -/
def checkTriggersGo (now : PyTime) (md : MarketData) (bound : ℕ) :
    List (String × Trigger) → List FiredEvent →
    List FiredEvent × List (String × Trigger) × List FiredEvent
  | [], hist => ([], [], hist)
  | (id, t) :: rest, hist =>
      match t.check now md with
      | .error _ =>
          let r := checkTriggersGo now md bound rest hist
          (r.1, (id, t) :: r.2.1, r.2.2)
      | .ok (false, t') =>
          let r := checkTriggersGo now md bound rest hist
          (r.1, (id, t') :: r.2.1, r.2.2)
      | .ok (true, t') =>
          let ev := mkEvent id t' md now
          let r := checkTriggersGo now md bound rest (histAppend bound hist ev)
          (ev :: r.1, (id, t') :: r.2.1, r.2.2)

/-- `TriggerManager.check_triggers`: run every registered trigger against
the snapshot, collect the fired events, and thread the bounded history. -/
def TriggerManager.checkTriggers (m : TriggerManager) (now : PyTime) (md : MarketData) :
    List FiredEvent × TriggerManager :=
  let r := checkTriggersGo now md m.maxHistory m.triggers m.history
  (r.1, { triggers := r.2.1, history := r.2.2, maxHistory := m.maxHistory })

/-- The qualifying-tick condition of `BollingerBreakoutTrigger.check`:
price strictly beyond the configured band edge (band defaults are the
`.get` fallbacks `price * 1.1` and `price * 0.9`). -/
def bbQualifying (dir : String) (md : MarketData) : Prop :=
  (dir = "upper" ∧ md.bbUpper.getD (md.price.getD 0 * (11 / 10)) < md.price.getD 0) ∨
  (dir = "lower" ∧ md.price.getD 0 < md.bbLower.getD (md.price.getD 0 * (9 / 10)))

/-! ## Shared lemmas -/

/-- Error-wrapping preserves error-ness. -/
theorem isError_wrapErr {α : Type} (pre : String) (x : Except String α) :
    isError (wrapErr pre x) = isError x := by
  cases x <;> simp [wrapErr, isError]

/-- `evaluate` errors exactly when its branch body does. -/
theorem isError_evaluate (ctx : Ctx) (clock : ℚ) (e : Expr) :
    isError (evaluate ctx clock e) = isError (evalCore ctx clock e) := by
  rw [evaluate, isError_wrapErr]

/-! ## C10: `reset` clears `last_triggered` and nothing else -/

/-- C10.  For every trigger variant, `reset()` sets `last_triggered` to
`None` and leaves every other field unchanged: `trigger_count` keeps its
value, a Bollinger trigger's `confirmation_count` is not cleared, a MACD
trigger's seeds are not cleared, and resetting a composite does not
reset (or otherwise change) its child triggers. -/
theorem reset_clears_only_lastTriggered (t : Trigger) :
    (Trigger.reset t).lastTriggered = Option.none ∧
    (Trigger.reset t).triggerCount = t.triggerCount ∧
    (Trigger.reset t).typeName = t.typeName ∧
    (Trigger.reset t).confirmationCountOf = t.confirmationCountOf ∧
    (Trigger.reset t).macdSeedsOf = t.macdSeedsOf ∧
    (Trigger.reset t).childrenOf = t.childrenOf := by
  cases t <;>
    simp [Trigger.reset, Trigger.lastTriggered, Trigger.triggerCount, Trigger.baseState,
          Trigger.typeName, Trigger.confirmationCountOf, Trigger.macdSeedsOf,
          Trigger.childrenOf]

/-! ## C4: identifier resolution -/

/-- C4.  Keyword identifiers (`true`, `false`, `null`, `pi`, `e`) resolve
to their fixed values before any context lookup, whatever the context
binds for those names; an identifier in neither the keyword table nor
the context evaluates to the number 0, not an error. -/
theorem identifier_resolution :
    (∀ (ctx : Ctx) (clock : ℚ),
      evaluate ctx clock (.name "true") = .ok (.bool true) ∧
      evaluate ctx clock (.name "false") = .ok (.bool false) ∧
      evaluate ctx clock (.name "null") = .ok .none ∧
      evaluate ctx clock (.name "pi") = .ok (.num (884279719003555 / 281474976710656)) ∧
      evaluate ctx clock (.name "e") = .ok (.num (6121026514868073 / 2251799813685248))) ∧
    (∀ (ctx : Ctx) (clock : ℚ) (id : String),
      keywords.lookup id = Option.none →
      List.lookup id ctx = Option.none →
      evaluate ctx clock (.name id) = .ok (.num 0)) := by
  constructor
  · intro ctx clock
    refine ⟨?_, ?_, ?_, ?_, ?_⟩ <;>
      simp [evaluate, evalCore, keywords, wrapErr, List.lookup]
  · intro ctx clock id hkw hctx
    simp [evaluate, evalCore, wrapErr, hkw, hctx]

/-- C4 witness: `"zzz"` is in neither table (shown by evaluation), and a
context binding `"true"` cannot shadow the keyword. -/
theorem identifier_resolution_witness :
    evaluate [("true", Value.num 9), ("bar", Value.num 3)] 0 (.name "zzz") = .ok (.num 0) ∧
    evaluate [("true", Value.num 9), ("bar", Value.num 3)] 0 (.name "true") = .ok (.bool true) :=
  ⟨identifier_resolution.2 [("true", Value.num 9), ("bar", Value.num 3)] 0 "zzz"
      (by simp [keywords, List.lookup]) (by simp [List.lookup]),
   (identifier_resolution.1 [("true", Value.num 9), ("bar", Value.num 3)] 0).1⟩

/-! ## C1: the closed-interpreter property -/

/-- C1 counterexample.  The claim as stated is false in both directions:
`1 / 0` is built only from allow-listed node kinds yet `evaluate` fails
on it (a typed `Value` is not returned), and a conditional whose
untaken branch contains an `ast.Attribute` node evaluates successfully
to `2` even though the tree contains a node kind outside the allow-list. -/
theorem evaluate_allowlist_counterexample :
    (allowedB (.binOp .div (.constant (.num 1)) (.constant (.num 0))) = true ∧
     isError (evaluate [] 0 (.binOp .div (.constant (.num 1)) (.constant (.num 0)))) = true) ∧
    (allowedB (.ifExp (.constant (.bool true)) (.constant (.num 2))
        (.attribute (.name "x") "y")) = false ∧
     evaluate [] 0 (.ifExp (.constant (.bool true)) (.constant (.num 2))
        (.attribute (.name "x") "y")) = .ok (.num 2)) := by
  refine ⟨⟨?_, ?_⟩, ?_, ?_⟩
  · simp [allowedB]
  · simp [isError_evaluate, evalCore, evaluate, bindE, wrapErr, applyBinOp, pyDiv,
          toNumber, isError]
  · simp [allowedB]
  · simp [evaluate, evalCore, bindE, wrapErr, truthy]

/-- C1 (amended).  The evaluator is a closed interpreter: it is a total
function of the tree, context and clock (it returns a typed `Value` or
an evaluation error, never anything else).  Whenever evaluation reaches
a construct outside the allow-list it fails: an `ast.Attribute` node
always evaluates to an error, a call whose function position is not a
plain name always evaluates to an error, and a call to a function name
missing from the registry always evaluates to an error (before its
arguments are evaluated).  An allow-listed tree may, however, also fail
with an evaluation error (e.g. `1 / 0`), and a disallowed node in a
branch that is never evaluated does not cause a failure. -/
theorem evaluate_closed_interpreter :
    (∀ (ctx : Ctx) (clock : ℚ) (e : Expr) (a : String),
      isError (evaluate ctx clock (.attribute e a)) = true) ∧
    (∀ (ctx : Ctx) (clock : ℚ) (e : Expr) (a : String) (args : List Expr)
        (kwargs : List (String × Expr)),
      isError (evaluate ctx clock (.call (.attribute e a) args kwargs)) = true) ∧
    (∀ (ctx : Ctx) (clock : ℚ) (fname : String) (args : List Expr)
        (kwargs : List (String × Expr)),
      functions.lookup fname = Option.none →
      isError (evaluate ctx clock (.call (.name fname) args kwargs)) = true) := by
  refine ⟨?_, ?_, ?_⟩
  · intro ctx clock e a
    simp [evaluate, evalCore, wrapErr, isError]
  · intro ctx clock e a args kwargs
    simp [evaluate, evalCore, wrapErr, isError]
  · intro ctx clock fname args kwargs hf
    simp [evaluate, evalCore, wrapErr, hf, isError]

/-- C1 witness: `this_function_does_not_exist` is unregistered (shown by
evaluating the registry lookup), so calling it fails. -/
theorem evaluate_closed_interpreter_witness :
    isError (evaluate [] 0 (.call (.name "this_function_does_not_exist") [] [])) = true :=
  evaluate_closed_interpreter.2.2 [] 0 "this_function_does_not_exist" [] []
    (by simp [functions, List.lookup])

/-! ## C3: chained comparisons -/

/-- C3 counterexample.  The claim says a failing first pair short-circuits
so that later comparand expressions are not evaluated; the code evaluates
every comparator expression, so `1 < 0 < (1/0)` raises the division
error instead of returning `false`. -/
theorem chained_comparison_counterexample :
    isError (evaluate [] 0 (.compare (.constant (.num 1))
      [(.lt, .constant (.num 0)),
       (.lt, .binOp .div (.constant (.num 1)) (.constant (.num 0)))])) = true := by
  simp [isError_evaluate, evalCore, evaluate, evalChain, bindE, wrapErr, applyBinOp,
        applyCmpOp, valueLt, pyDiv, toNumber, isError]

/-- C3 (amended).  Chained comparisons evaluate left-to-right, each
pairwise comparison using the previous right-hand operand as the next
left-hand operand, and the overall result is the conjunction of the
pairwise results (once a pair fails the remaining comparisons are not
applied); in particular `1 < 2 < 3` is true, `1 < 3 < 2` is false and
`3 > 2 > 1` is true.  However, the remaining comparand expressions are
still evaluated after a failing pair, so an error in a later comparand
surfaces even when the chain is already false. -/
theorem chained_comparison_semantics :
    (∀ x y z : ℚ, evaluate [] 0 (.compare (.constant (.num x))
        [(.lt, .constant (.num y)), (.lt, .constant (.num z))]) =
      .ok (.bool (decide (x < y) && decide (y < z)))) ∧
    (∀ x y z : ℚ, evaluate [] 0 (.compare (.constant (.num x))
        [(.gt, .constant (.num y)), (.gt, .constant (.num z))]) =
      .ok (.bool (decide (y < x) && decide (z < y)))) ∧
    (∀ x y : ℚ, isError (evaluate [] 0 (.compare (.constant (.num x))
        [(.lt, .constant (.num y)),
         (.lt, .binOp .div (.constant (.num 1)) (.constant (.num 0)))])) = true) := by
  refine ⟨?_, ?_, ?_⟩
  · intro x y z
    by_cases hxy : x < y <;>
      simp [evaluate, evalCore, evalChain, bindE, wrapErr, applyCmpOp, valueLt, toNumber, hxy]
  · intro x y z
    by_cases hxy : y < x <;>
      simp [evaluate, evalCore, evalChain, bindE, wrapErr, applyCmpOp, valueLt, toNumber, hxy]
  · intro x y
    by_cases hxy : x < y <;>
      simp [isError_evaluate, evalCore, evaluate, evalChain, bindE, wrapErr, applyBinOp,
            applyCmpOp, valueLt, pyDiv, toNumber, isError, hxy]

/-- C3 concrete instances of the spec: `1 < 2 < 3`, `1 < 3 < 2`,
`3 > 2 > 1` (not a claim artifact; kept as an evaluation check of the
amended semantics on the spec's examples). -/
theorem chained_comparison_examples :
    evaluate [] 0 (.compare (.constant (.num 1))
      [(.lt, .constant (.num 2)), (.lt, .constant (.num 3))]) = .ok (.bool true) ∧
    evaluate [] 0 (.compare (.constant (.num 1))
      [(.lt, .constant (.num 3)), (.lt, .constant (.num 2))]) = .ok (.bool false) ∧
    evaluate [] 0 (.compare (.constant (.num 3))
      [(.gt, .constant (.num 2)), (.gt, .constant (.num 1))]) = .ok (.bool true) := by
  refine ⟨?_, ?_, ?_⟩ <;>
    simp [evaluate, evalCore, evalChain, bindE, wrapErr, applyCmpOp, valueLt, toNumber] <;>
    norm_num

/-! ## C5: MACD crossover edge detection -/

/-- C5.  A MACD crossover trigger's first `check` (either seed still
`None`) only records the current macd/signal pair and reports not fired;
once seeded, a bullish trigger fires exactly when the sign of
`macd - signal` flips from nonpositive to positive between the previous
and current tick, and a bearish one exactly on the opposite flip, the
seeds advancing every call.  Feeding `(macd=1, signal=2)` then
`(macd=3, signal=2)` to a bullish trigger fires exactly once, on the
second call. -/
theorem macd_crossover_behavior :
    (∀ (s : BaseState) (ct : String) (ps : Option ℚ) (now : PyTime) (md : MarketData),
      Trigger.check now md (.macdCross s ct Option.none ps) =
        .ok (false, .macdCross s ct (some (md.macd.getD 0)) (some (md.macdSignal.getD 0)))) ∧
    (∀ (s : BaseState) (ct : String) (p : ℚ) (now : PyTime) (md : MarketData),
      Trigger.check now md (.macdCross s ct (some p) Option.none) =
        .ok (false, .macdCross s ct (some (md.macd.getD 0)) (some (md.macdSignal.getD 0)))) ∧
    (∀ (s : BaseState) (p q : ℚ) (now : PyTime) (md : MarketData),
      Trigger.check now md (.macdCross s "bullish" (some p) (some q)) =
        (if p - q ≤ 0 ∧ 0 < md.macd.getD 0 - md.macdSignal.getD 0 then
          .ok (true, .macdCross (fireBase s now) "bullish"
                (some (md.macd.getD 0)) (some (md.macdSignal.getD 0)))
        else
          .ok (false, .macdCross s "bullish"
                (some (md.macd.getD 0)) (some (md.macdSignal.getD 0))))) ∧
    (∀ (s : BaseState) (p q : ℚ) (now : PyTime) (md : MarketData),
      Trigger.check now md (.macdCross s "bearish" (some p) (some q)) =
        (if 0 ≤ p - q ∧ md.macd.getD 0 - md.macdSignal.getD 0 < 0 then
          .ok (true, .macdCross (fireBase s now) "bearish"
                (some (md.macd.getD 0)) (some (md.macdSignal.getD 0)))
        else
          .ok (false, .macdCross s "bearish"
                (some (md.macd.getD 0)) (some (md.macdSignal.getD 0))))) ∧
    (Trigger.check ⟨0, 0, 0, 0⟩ { macd := some 1, macdSignal := some 2 }
        (.macdCross ⟨Option.none, 0⟩ "bullish" Option.none Option.none) =
      .ok (false, .macdCross ⟨Option.none, 0⟩ "bullish" (some 1) (some 2)) ∧
     Trigger.check ⟨0, 0, 0, 0⟩ { macd := some 3, macdSignal := some 2 }
        (.macdCross ⟨Option.none, 0⟩ "bullish" (some 1) (some 2)) =
      .ok (true, .macdCross ⟨some 0, 1⟩ "bullish" (some 3) (some 2))) := by
  refine ⟨?_, ?_, ?_, ?_, ?_, ?_⟩
  · intro s ct ps now md
    cases ps <;> simp [Trigger.check]
  · intro s ct p now md
    simp [Trigger.check]
  · intro s p q now md
    by_cases h1 : p ≤ q <;> by_cases h2 : md.macdSignal.getD 0 < md.macd.getD 0 <;>
      simp [Trigger.check, h1, h2, sub_nonpos, sub_pos]
  · intro s p q now md
    by_cases h1 : q ≤ p <;> by_cases h2 : md.macd.getD 0 < md.macdSignal.getD 0 <;>
      simp [Trigger.check, h1, h2, sub_nonneg, sub_neg]
  · simp [Trigger.check]
  · norm_num [Trigger.check, fireBase]

/-! ## C6: Bollinger breakout confirmation counting -/

/-- C6.  `BollingerBreakoutTrigger` increments `confirmation_count` on
each consecutive qualifying tick and resets it to 0 on any non-qualifying
tick; it fires — resetting the counter to 0 — exactly when the counter
reaches `confirmation_period`.  With `confirmation_period = 2`,
qualifying ticks 1 and 2 fire on tick 2 (counter back at 0), and a
qualifying tick followed by a non-qualifying one does not fire and
leaves the counter at 0. -/
theorem bollinger_confirmation :
    (∀ (s : BaseState) (dir : String) (period count : ℕ) (now : PyTime) (md : MarketData),
      bbQualifying dir md → period ≤ count + 1 →
      Trigger.check now md (.bollinger s dir period count) =
        .ok (true, .bollinger (fireBase s now) dir period 0)) ∧
    (∀ (s : BaseState) (dir : String) (period count : ℕ) (now : PyTime) (md : MarketData),
      bbQualifying dir md → count + 1 < period →
      Trigger.check now md (.bollinger s dir period count) =
        .ok (false, .bollinger s dir period (count + 1))) ∧
    (∀ (s : BaseState) (dir : String) (period count : ℕ) (now : PyTime) (md : MarketData),
      ¬bbQualifying dir md → 0 < period →
      Trigger.check now md (.bollinger s dir period count) =
        .ok (false, .bollinger s dir period 0)) ∧
    (Trigger.check ⟨0, 0, 0, 0⟩ { price := some 10, bbUpper := some 5 }
        (.bollinger ⟨Option.none, 0⟩ "upper" 2 0) =
      .ok (false, .bollinger ⟨Option.none, 0⟩ "upper" 2 1) ∧
     Trigger.check ⟨0, 0, 0, 0⟩ { price := some 10, bbUpper := some 5 }
        (.bollinger ⟨Option.none, 0⟩ "upper" 2 1) =
      .ok (true, .bollinger ⟨some 0, 1⟩ "upper" 2 0) ∧
     Trigger.check ⟨0, 0, 0, 0⟩ { price := some 1, bbUpper := some 5 }
        (.bollinger ⟨Option.none, 0⟩ "upper" 2 1) =
      .ok (false, .bollinger ⟨Option.none, 0⟩ "upper" 2 0)) := by
  refine ⟨?_, ?_, ?_, ?_, ?_, ?_⟩
  · intro s dir period count now md hq hp
    rcases hq with ⟨hd, hlt⟩ | ⟨hd, hlt⟩ <;>
      simp_all [Trigger.check, bbQualifying]
  · intro s dir period count now md hq hp
    have hnp : ¬ (period ≤ count + 1) := by omega
    rcases hq with ⟨hd, hlt⟩ | ⟨hd, hlt⟩ <;>
      simp_all [Trigger.check, bbQualifying]
  · intro s dir period count now md hq hp
    have hnp : ¬ (period ≤ 0) := by omega
    simp only [bbQualifying, not_or, not_and] at hq
    by_cases hu : dir = "upper"
    · simp [Trigger.check, hq.1 hu, hu, hnp]
    · by_cases hl : dir = "lower"
      · simp [Trigger.check, hq.2 hl, hu, hl, hnp]
      · simp [Trigger.check, hu, hl, hnp]
  · norm_num [Trigger.check, bbQualifying]
  · norm_num [Trigger.check, bbQualifying, fireBase]
  · norm_num [Trigger.check, bbQualifying]

/-- C6 witness for the hypothesis-bearing parts: a concrete qualifying
tick at the period bound fires (first conjunct applied at
price 10 > upper band 5, period 2, count 1). -/
theorem bollinger_confirmation_witness :
    bbQualifying "upper" { price := some 10, bbUpper := some 5 } ∧
    Trigger.check ⟨0, 0, 0, 0⟩ { price := some 10, bbUpper := some 5 }
        (.bollinger ⟨Option.none, 0⟩ "upper" 2 1) =
      .ok (true, .bollinger (fireBase ⟨Option.none, 0⟩ ⟨0, 0, 0, 0⟩) "upper" 2 0) :=
  ⟨by norm_num [bbQualifying],
   bollinger_confirmation.1 ⟨Option.none, 0⟩ "upper" 2 1 ⟨0, 0, 0, 0⟩
     { price := some 10, bbUpper := some 5 } (by norm_num [bbQualifying]) (by omega)⟩

/-! ## C7: composite triggers evaluate every child -/

/-- C7.  `CompositeTrigger.check` checks every child, in order, with no
short-circuit: on a successful batch the recorded per-child results and
updated child states are exactly each child's own `check` output, and
the composite then combines the fired flags with the configured
combinator (shown for AND and OR).  Consequently an AND of an
always-true and an always-false child never fires in either order while
the true child's `trigger_count` still advances, and an OR fires when
either child fires. -/
theorem composite_checks_all_children :
    (∀ (children : List Trigger) (now : PyTime) (md : MarketData)
        (res : List (Bool × Trigger)),
      Trigger.checkList now md children = .ok res →
      res.length = children.length ∧
      ∀ i (hi : i < children.length) (hr : i < res.length),
        Trigger.check now md (children.get ⟨i, hi⟩) = .ok (res.get ⟨i, hr⟩)) ∧
    (∀ (s : BaseState) (children : List Trigger) (now : PyTime) (md : MarketData)
        (res : List (Bool × Trigger)),
      Trigger.checkList now md children = .ok res →
      Trigger.check now md (.composite s "AND" children) =
        .ok ((res.map Prod.fst).all id,
          .composite (if (res.map Prod.fst).all id then fireBase s now else s)
            "AND" (res.map Prod.snd))) ∧
    (∀ (s : BaseState) (children : List Trigger) (now : PyTime) (md : MarketData)
        (res : List (Bool × Trigger)),
      Trigger.checkList now md children = .ok res →
      Trigger.check now md (.composite s "OR" children) =
        .ok ((res.map Prod.fst).any id,
          .composite (if (res.map Prod.fst).any id then fireBase s now else s)
            "OR" (res.map Prod.snd))) ∧
    (Trigger.check ⟨0, 0, 0, 0⟩ { price := some 5 }
        (.composite ⟨Option.none, 0⟩ "AND"
          [.priceAbove ⟨Option.none, 0⟩ (-1), .priceAbove ⟨Option.none, 0⟩ 100]) =
      .ok (false, .composite ⟨Option.none, 0⟩ "AND"
          [.priceAbove ⟨some 0, 1⟩ (-1), .priceAbove ⟨Option.none, 0⟩ 100]) ∧
     Trigger.check ⟨0, 0, 0, 0⟩ { price := some 5 }
        (.composite ⟨Option.none, 0⟩ "AND"
          [.priceAbove ⟨Option.none, 0⟩ 100, .priceAbove ⟨Option.none, 0⟩ (-1)]) =
      .ok (false, .composite ⟨Option.none, 0⟩ "AND"
          [.priceAbove ⟨Option.none, 0⟩ 100, .priceAbove ⟨some 0, 1⟩ (-1)]) ∧
     Trigger.check ⟨0, 0, 0, 0⟩ { price := some 5 }
        (.composite ⟨Option.none, 0⟩ "OR"
          [.priceAbove ⟨Option.none, 0⟩ 100, .priceAbove ⟨Option.none, 0⟩ (-1)]) =
      .ok (true, .composite ⟨some 0, 1⟩ "OR"
          [.priceAbove ⟨Option.none, 0⟩ 100, .priceAbove ⟨some 0, 1⟩ (-1)])) := by
  refine ⟨?_, ?_, ?_, ?_, ?_, ?_⟩
  · intro children now md res h
    induction children generalizing res with
    | nil =>
        simp [Trigger.checkList] at h
        subst h
        exact ⟨rfl, fun i hi _ => by simp at hi⟩
    | cons t ts ih =>
        rw [Trigger.checkList] at h
        cases hc : Trigger.check now md t with
        | error e => simp [hc, bindE] at h
        | ok r =>
            rw [hc] at h
            cases hl : Trigger.checkList now md ts with
            | error e => simp [hl, bindE] at h
            | ok rs =>
                rw [hl] at h
                simp [bindE] at h
                subst h
                obtain ⟨hlen, hidx⟩ := ih rs hl
                refine ⟨by simp [hlen], ?_⟩
                intro i hi hr
                cases i with
                | zero => simpa using hc
                | succ j =>
                    have hj : j < ts.length := by simpa using hi
                    have hjr : j < rs.length := by simpa using hr
                    simpa using hidx j hj hjr
  · intro s children now md res h
    cases hb : (List.map Prod.fst res).all id <;>
      simp [Trigger.check, h, bindE, hb]
  · intro s children now md res h
    cases hb : (List.map Prod.fst res).any id <;>
      simp [Trigger.check, h, bindE, hb]
  · norm_num [Trigger.check, Trigger.checkList, bindE, fireBase]
  · norm_num [Trigger.check, Trigger.checkList, bindE, fireBase]
  · norm_num [Trigger.check, Trigger.checkList, bindE, fireBase]
    decide

/-- C7 witness: the AND conjunct applied to the concrete two-child batch
(true child first) — the hypothesis is discharged by evaluating
`checkList`, and the composite does not fire while both children's
states advance per their own `check`. -/
theorem composite_checks_all_children_witness :
    Trigger.checkList ⟨0, 0, 0, 0⟩ { price := some 5 }
      [.priceAbove ⟨Option.none, 0⟩ (-1), .priceAbove ⟨Option.none, 0⟩ 100] =
      .ok [(true, .priceAbove ⟨some 0, 1⟩ (-1)), (false, .priceAbove ⟨Option.none, 0⟩ 100)] ∧
    Trigger.check ⟨0, 0, 0, 0⟩ { price := some 5 }
      (.composite ⟨Option.none, 0⟩ "AND"
        [.priceAbove ⟨Option.none, 0⟩ (-1), .priceAbove ⟨Option.none, 0⟩ 100]) =
      .ok ((([(true, Trigger.priceAbove ⟨some 0, 1⟩ (-1)),
              (false, Trigger.priceAbove ⟨Option.none, 0⟩ 100)] :
                List (Bool × Trigger)).map Prod.fst).all id,
        .composite
          (if (([(true, Trigger.priceAbove ⟨some 0, 1⟩ (-1)),
                 (false, Trigger.priceAbove ⟨Option.none, 0⟩ 100)] :
                   List (Bool × Trigger)).map Prod.fst).all id then
            fireBase ⟨Option.none, 0⟩ ⟨0, 0, 0, 0⟩ else ⟨Option.none, 0⟩)
          "AND"
          (([(true, Trigger.priceAbove ⟨some 0, 1⟩ (-1)),
             (false, Trigger.priceAbove ⟨Option.none, 0⟩ 100)] :
               List (Bool × Trigger)).map Prod.snd)) :=
  ⟨by norm_num [Trigger.checkList, Trigger.check, bindE, fireBase],
   composite_checks_all_children.2.1 ⟨Option.none, 0⟩
     [Trigger.priceAbove ⟨Option.none, 0⟩ (-1), Trigger.priceAbove ⟨Option.none, 0⟩ 100]
     ⟨0, 0, 0, 0⟩ { price := some 5 }
     [(true, Trigger.priceAbove ⟨some 0, 1⟩ (-1)),
      (false, Trigger.priceAbove ⟨Option.none, 0⟩ 100)]
     (by norm_num [Trigger.checkList, Trigger.check, bindE, fireBase])⟩

/-! ## Manager lemmas -/

/-- `histAppend` as an unconditional drop of the oldest overflow. -/
theorem histAppend_eq (bound : ℕ) (h : List FiredEvent) (e : FiredEvent) :
    histAppend bound h e = (h ++ [e]).drop ((h.length + 1) - bound) := by
  simp only [histAppend, List.length_append, List.length_cons, List.length_nil]
  split
  · rfl
  · have h0 : h.length + 1 - bound = 0 := by omega
    simp [h0]

/-- The bounded history never grows beyond the bound. -/
theorem histAppend_length_le (bound : ℕ) (h : List FiredEvent) (e : FiredEvent) :
    (histAppend bound h e).length ≤ bound := by
  rw [histAppend_eq]
  simp
  omega

/-- The manager loop distributes over registry concatenation: the second
block starts from the history the first block left behind. -/
theorem checkTriggersGo_append (now : PyTime) (md : MarketData) (bound : ℕ)
    (ts1 ts2 : List (String × Trigger)) (hist : List FiredEvent) :
    checkTriggersGo now md bound (ts1 ++ ts2) hist =
      ((checkTriggersGo now md bound ts1 hist).1 ++
         (checkTriggersGo now md bound ts2 (checkTriggersGo now md bound ts1 hist).2.2).1,
       (checkTriggersGo now md bound ts1 hist).2.1 ++
         (checkTriggersGo now md bound ts2 (checkTriggersGo now md bound ts1 hist).2.2).2.1,
       (checkTriggersGo now md bound ts2 (checkTriggersGo now md bound ts1 hist).2.2).2.2) := by
  induction ts1 generalizing hist with
  | nil => simp [checkTriggersGo]
  | cons p rest ih =>
      obtain ⟨id, t⟩ := p
      cases hc : t.check now md with
      | error e => simp [checkTriggersGo, hc, ih]
      | ok r =>
          obtain ⟨fired, t'⟩ := r
          cases fired <;> simp [checkTriggersGo, hc, ih]

/-- One registry entry whose `check` raises contributes nothing: no
event, no history change, and the trigger object is kept as it was. -/
theorem checkTriggersGo_error_entry (now : PyTime) (md : MarketData) (bound : ℕ)
    (id : String) (terr : Trigger) (hist : List FiredEvent) (msg : String)
    (herr : terr.check now md = .error msg) :
    checkTriggersGo now md bound [(id, terr)] hist = ([], [(id, terr)], hist) := by
  simp [checkTriggersGo, herr]

/-- The registry keeps its length through a batch. -/
theorem checkTriggersGo_length (now : PyTime) (md : MarketData) (bound : ℕ) :
    ∀ (ts : List (String × Trigger)) (hist : List FiredEvent),
      (checkTriggersGo now md bound ts hist).2.1.length = ts.length := by
  intro ts
  induction ts with
  | nil => intro hist; simp [checkTriggersGo]
  | cons p rest ih =>
      intro hist
      obtain ⟨id, t⟩ := p
      cases hc : t.check now md with
      | error e => simp [checkTriggersGo, hc, ih]
      | ok r =>
          obtain ⟨fired, t'⟩ := r
          cases fired <;> simp [checkTriggersGo, hc, ih]

/-- The final history of a batch is the initial history with the fired
events pushed through the bounded append, in firing order. -/
theorem checkTriggersGo_history (now : PyTime) (md : MarketData) (bound : ℕ) :
    ∀ (ts : List (String × Trigger)) (hist : List FiredEvent),
      (checkTriggersGo now md bound ts hist).2.2 =
        (checkTriggersGo now md bound ts hist).1.foldl (histAppend bound) hist := by
  intro ts
  induction ts with
  | nil => intro hist; simp [checkTriggersGo]
  | cons p rest ih =>
      intro hist
      obtain ⟨id, t⟩ := p
      cases hc : t.check now md with
      | error e => simp [checkTriggersGo, hc, ih]
      | ok r =>
          obtain ⟨fired, t'⟩ := r
          cases fired <;> simp [checkTriggersGo, hc, ih]

/-! ## C2: per-trigger failure isolation in `check_triggers` -/

/-- C2.  `check_triggers` catches an exception raised by an individual
trigger's `check`, treats that trigger as not fired for the tick, and
continues the batch: with a raising trigger inserted anywhere in the
registry, the fired events and the history are exactly those of the
registry without it, the raising trigger is kept unchanged at its
position, and every other trigger's updated state is unaffected; no
exception propagates out of `checkTriggers` (it is a total function).
Concretely, a registry of a raising `BaseTrigger` followed by a normal
price trigger still reports the price trigger's firing. -/
theorem check_triggers_isolates_failures :
    (∀ (pre post : List (String × Trigger)) (id : String) (terr : Trigger)
        (now : PyTime) (md : MarketData) (hist : List FiredEvent) (bound : ℕ) (msg : String),
      terr.check now md = .error msg →
      (TriggerManager.checkTriggers ⟨pre ++ (id, terr) :: post, hist, bound⟩ now md).1 =
        (TriggerManager.checkTriggers ⟨pre ++ post, hist, bound⟩ now md).1 ∧
      (TriggerManager.checkTriggers ⟨pre ++ (id, terr) :: post, hist, bound⟩ now md).2.history =
        (TriggerManager.checkTriggers ⟨pre ++ post, hist, bound⟩ now md).2.history ∧
      (TriggerManager.checkTriggers ⟨pre ++ (id, terr) :: post, hist, bound⟩ now md).2.triggers =
        ((TriggerManager.checkTriggers ⟨pre ++ post, hist, bound⟩ now md).2.triggers.take
            pre.length) ++
          (id, terr) ::
          ((TriggerManager.checkTriggers ⟨pre ++ post, hist, bound⟩ now md).2.triggers.drop
            pre.length)) ∧
    (TriggerManager.checkTriggers
        ⟨[("bad", .base ⟨Option.none, 0⟩ "custom"), ("good", .priceAbove ⟨Option.none, 0⟩ 1)],
          [], 1000⟩ ⟨0, 0, 0, 0⟩ { price := some 5 } =
      ([⟨"good", "price_above", some 5, Option.none, "unknown", 0⟩],
       ⟨[("bad", .base ⟨Option.none, 0⟩ "custom"), ("good", .priceAbove ⟨some 0, 1⟩ 1)],
        [⟨"good", "price_above", some 5, Option.none, "unknown", 0⟩], 1000⟩)) := by
  constructor
  · intro pre post id terr now md hist bound msg herr
    have hmid : pre ++ (id, terr) :: post = pre ++ [(id, terr)] ++ post := by simp
    have hgo := checkTriggersGo_append now md bound pre [(id, terr)] hist
    have herr1 := checkTriggersGo_error_entry now md bound id terr
      (checkTriggersGo now md bound pre hist).2.2 msg herr
    have hsplit := checkTriggersGo_append now md bound (pre ++ [(id, terr)]) post hist
    have hplain := checkTriggersGo_append now md bound pre post hist
    have hlen := checkTriggersGo_length now md bound pre hist
    simp only [TriggerManager.checkTriggers, hmid, hsplit, hgo, herr1, hplain]
    refine ⟨?_, ?_, ?_⟩
    · simp
    · simp
    · rw [← hlen]
      simp [List.take_left, List.drop_left]
  · norm_num [TriggerManager.checkTriggers, checkTriggersGo, Trigger.check, mkEvent,
              Trigger.typeName, fireBase, histAppend]

/-- C2 witness: the isolation conjunct applied to the concrete raising
`BaseTrigger` between two price triggers; its hypothesis is discharged
by evaluating `check` on the raising trigger. -/
theorem check_triggers_isolates_failures_witness :
    Trigger.check ⟨0, 0, 0, 0⟩ { price := some 5 } (.base ⟨Option.none, 0⟩ "custom") =
      .error "NotImplementedError: Subclasses must implement check()" ∧
    (TriggerManager.checkTriggers
        ⟨[("a", .priceAbove ⟨Option.none, 0⟩ 1)] ++ ("bad", .base ⟨Option.none, 0⟩ "custom") ::
          [("b", .priceAbove ⟨Option.none, 0⟩ 2)], [], 1000⟩ ⟨0, 0, 0, 0⟩
        { price := some 5 }).1 =
      (TriggerManager.checkTriggers
        ⟨[("a", .priceAbove ⟨Option.none, 0⟩ 1)] ++ [("b", .priceAbove ⟨Option.none, 0⟩ 2)],
          [], 1000⟩ ⟨0, 0, 0, 0⟩ { price := some 5 }).1 :=
  ⟨by simp [Trigger.check],
   ((check_triggers_isolates_failures.1 [("a", .priceAbove ⟨Option.none, 0⟩ 1)]
      [("b", .priceAbove ⟨Option.none, 0⟩ 2)] "bad" (.base ⟨Option.none, 0⟩ "custom")
      ⟨0, 0, 0, 0⟩ { price := some 5 } [] 1000
      "NotImplementedError: Subclasses must implement check()"
      (by simp [Trigger.check])).1)⟩

/-! ## C8: the fired-event history is a bounded FIFO -/

/-- C8.  The manager's history is a bounded FIFO: `check_triggers`
pushes each firing through the bounded append (second conjunct), and
folding the bounded append over any sequence of events keeps exactly the
most recent `bound` of them, oldest evicted first (first conjunct); in
particular, from an empty history, 1050 firings leave exactly the 1000
most recent events in order (third conjunct, with the construction-time
bound 1000). -/
theorem history_bounded_fifo :
    (∀ (bound : ℕ) (es : List FiredEvent) (h : List FiredEvent),
      h.length ≤ bound →
      es.foldl (histAppend bound) h = (h ++ es).drop ((h.length + es.length) - bound)) ∧
    (∀ (m : TriggerManager) (now : PyTime) (md : MarketData),
      (m.checkTriggers now md).2.history =
        (m.checkTriggers now md).1.foldl (histAppend m.maxHistory) m.history) ∧
    (∀ es : List FiredEvent, es.length = 1050 →
      es.foldl (histAppend 1000) [] = es.drop 50) := by
  have hfold : ∀ (bound : ℕ) (es : List FiredEvent) (h : List FiredEvent),
      h.length ≤ bound →
      es.foldl (histAppend bound) h = (h ++ es).drop ((h.length + es.length) - bound) := by
    intro bound es
    induction es with
    | nil =>
        intro h hh
        simp [Nat.sub_eq_zero_of_le hh]
    | cons e rest ih =>
        intro h hh
        rw [List.foldl_cons, ih (histAppend bound h e) (histAppend_length_le bound h e),
            histAppend_eq]
        have hk : h.length + 1 - bound ≤ (h ++ [e]).length := by simp
        rw [← List.drop_append_of_le_length hk, List.drop_drop]
        have hlen : ((h ++ [e]).drop (h.length + 1 - bound)).length =
            (h.length + 1) - (h.length + 1 - bound) := by simp
        rw [hlen]
        have harr : h ++ [e] ++ rest = h ++ e :: rest := by simp
        rw [harr]
        congr 1
        simp
        omega
  refine ⟨hfold, ?_, ?_⟩
  · intro m now md
    exact checkTriggersGo_history now md m.maxHistory m.triggers m.history
  · intro es hes
    rw [hfold 1000 es [] (by simp)]
    simp [hes]

/-- C8 witness: 1050 distinct events folded into an empty history leave
the last 1000, by the third conjunct at a concrete event sequence. -/
theorem history_bounded_fifo_witness :
    ((List.range 1050).map
        (fun i => FiredEvent.mk (toString i) "price_above" Option.none Option.none "u" 0)).length
      = 1050 ∧
    ((List.range 1050).map
        (fun i => FiredEvent.mk (toString i) "price_above" Option.none Option.none "u" 0)).foldl
        (histAppend 1000) [] =
      ((List.range 1050).map
        (fun i => FiredEvent.mk (toString i) "price_above" Option.none Option.none "u" 0)).drop 50 :=
  ⟨by simp, history_bounded_fifo.2.2 _ (by simp)⟩

/-! ## C9: evaluator purity -/

/-- Congruence for `bindE` in its continuation. -/
theorem bindE_congr {α β : Type} {x : Except String α} {f g : α → Except String β}
    (h : ∀ v, f v = g v) : bindE x f = bindE x g := by
  cases x <;> simp [bindE, h]

/-- Only the three time functions are registered with a clock-reading
implementation. -/
theorem lookup_clockedFn_mem_timeNames (fname : String)
    (spec : List (String × Option Value)) (impl : ℚ → List Value → Except String Value)
    (hl : functions.lookup fname = some (.clockedFn spec impl)) :
    timeNames.contains fname = true := by
  simp only [functions, List.lookup] at hl
  repeat' split at hl
  all_goals simp_all [timeNames]

/-- Applying a registered function whose name is not a time function is
independent of the clock. -/
theorem applyDSLFunc_clock_irrelevant (fname : String) (d : DSLFunc)
    (hl : functions.lookup fname = some d) (hm : fname ∉ timeNames)
    (n1 n2 : ℚ) (argv : List Value) (kwv : List (String × Value)) :
    applyDSLFunc n1 d argv kwv = applyDSLFunc n2 d argv kwv := by
  cases d with
  | pureFn spec impl => rfl
  | clockedFn spec impl =>
      have hmem := lookup_clockedFn_mem_timeNames fname spec impl hl
      simp at hmem
      exact absurd hmem hm
  | variadicFn impl => rfl

mutual

/-- A time-free tree evaluates identically under any two clocks. -/
theorem evaluate_clock_irrelevant (ctx : Ctx) (n1 n2 : ℚ) :
    ∀ (e : Expr), timeFreeB e = true → evaluate ctx n1 e = evaluate ctx n2 e
  | e, h => by
      rw [evaluate, evaluate, evalCore_clock_irrelevant ctx n1 n2 e h]
termination_by e => (sizeOf e, 1)

theorem evalCore_clock_irrelevant (ctx : Ctx) (n1 n2 : ℚ) :
    ∀ (e : Expr), timeFreeB e = true → evalCore ctx n1 e = evalCore ctx n2 e
  | .constant _, _ => by simp only [evalCore]
  | .name _, _ => by simp only [evalCore]
  | .listE es, h => by
      have he : timeFreeElts es = true := by simpa [timeFreeB] using h
      simp only [evalCore, evalElts_clock_irrelevant ctx n1 n2 es he]
  | .tupleE es, h => by
      have he : timeFreeElts es = true := by simpa [timeFreeB] using h
      simp only [evalCore, evalElts_clock_irrelevant ctx n1 n2 es he]
  | .dictE ps, h => by
      have hp : timeFreePairs ps = true := by simpa [timeFreeB] using h
      simp only [evalCore, evalDict_clock_irrelevant ctx n1 n2 [] ps hp]
  | .binOp op a b, h => by
      have hab : timeFreeB a = true ∧ timeFreeB b = true := by
        simpa [timeFreeB, Bool.and_eq_true] using h
      simp only [evalCore, evaluate_clock_irrelevant ctx n1 n2 a hab.1]
      exact bindE_congr fun l => by
        rw [evaluate_clock_irrelevant ctx n1 n2 b hab.2]
  | .unaryOp op a, h => by
      have ha : timeFreeB a = true := by simpa [timeFreeB] using h
      simp only [evalCore, evaluate_clock_irrelevant ctx n1 n2 a ha]
  | .compare l ops, h => by
      have hx : timeFreeB l = true ∧ timeFreeChain ops = true := by
        simpa [timeFreeB, Bool.and_eq_true] using h
      simp only [evalCore, evaluate_clock_irrelevant ctx n1 n2 l hx.1]
      exact bindE_congr fun lv => by
        rw [evalChain_clock_irrelevant ctx n1 n2 true lv ops hx.2]
  | .boolOp .and es, h => by
      have he : timeFreeElts es = true := by simpa [timeFreeB] using h
      simp only [evalCore, evalAnd_clock_irrelevant ctx n1 n2 es he]
  | .boolOp .or es, h => by
      have he : timeFreeElts es = true := by simpa [timeFreeB] using h
      simp only [evalCore, evalOr_clock_irrelevant ctx n1 n2 es he]
  | .call (.name fname) args kwargs, h => by
      have hx : (fname ∉ timeNames ∧ timeFreeElts args = true) ∧
          timeFreeKw kwargs = true := by
        simpa [timeFreeB, Bool.and_eq_true] using h
      cases hl : functions.lookup fname with
      | none => simp only [evalCore, hl]
      | some d =>
          simp only [evalCore, hl, evalElts_clock_irrelevant ctx n1 n2 args hx.1.2]
          exact bindE_congr fun argv => by
            rw [evalKw_clock_irrelevant ctx n1 n2 kwargs hx.2]
            exact bindE_congr fun kwv => by
              rw [applyDSLFunc_clock_irrelevant fname d hl hx.1.1 n1 n2 argv kwv]
  | .call (.constant v) args kwargs, _ => by simp only [evalCore]
  | .call (.listE es) args kwargs, _ => by simp only [evalCore]
  | .call (.tupleE es) args kwargs, _ => by simp only [evalCore]
  | .call (.dictE ps) args kwargs, _ => by simp only [evalCore]
  | .call (.binOp op a b) args kwargs, _ => by simp only [evalCore]
  | .call (.unaryOp op a) args kwargs, _ => by simp only [evalCore]
  | .call (.compare l ops) args kwargs, _ => by simp only [evalCore]
  | .call (.boolOp k es) args kwargs, _ => by simp only [evalCore]
  | .call (.call f a k) args kwargs, _ => by simp only [evalCore]
  | .call (.ifExp t b o) args kwargs, _ => by simp only [evalCore]
  | .call (.subscript v i) args kwargs, _ => by simp only [evalCore]
  | .call (.attribute e a) args kwargs, _ => by simp only [evalCore]
  | .ifExp t b o, h => by
      have hx : (timeFreeB t = true ∧ timeFreeB b = true) ∧ timeFreeB o = true := by
        simpa [timeFreeB, Bool.and_eq_true] using h
      simp only [evalCore, evaluate_clock_irrelevant ctx n1 n2 t hx.1.1]
      exact bindE_congr fun tv => by
        rw [evaluate_clock_irrelevant ctx n1 n2 b hx.1.2,
            evaluate_clock_irrelevant ctx n1 n2 o hx.2]
  | .subscript v i, h => by
      have hx : timeFreeB v = true ∧ timeFreeB i = true := by
        simpa [timeFreeB, Bool.and_eq_true] using h
      simp only [evalCore, evaluate_clock_irrelevant ctx n1 n2 v hx.1]
      exact bindE_congr fun vv => by
        rw [evaluate_clock_irrelevant ctx n1 n2 i hx.2]
  | .attribute e a, _ => by simp only [evalCore]
termination_by e => (sizeOf e, 0)

theorem evalElts_clock_irrelevant (ctx : Ctx) (n1 n2 : ℚ) :
    ∀ (es : List Expr), timeFreeElts es = true →
      evalElts ctx n1 es = evalElts ctx n2 es
  | [], _ => by simp only [evalElts]
  | e :: rest, h => by
      have hx : timeFreeB e = true ∧ timeFreeElts rest = true := by
        simpa [timeFreeElts, Bool.and_eq_true] using h
      simp only [evalElts, evaluate_clock_irrelevant ctx n1 n2 e hx.1]
      exact bindE_congr fun v => by
        rw [evalElts_clock_irrelevant ctx n1 n2 rest hx.2]
termination_by es => (sizeOf es, 0)

theorem evalDict_clock_irrelevant (ctx : Ctx) (n1 n2 : ℚ) :
    ∀ (acc : List (Value × Value)) (ps : List (Expr × Expr)), timeFreePairs ps = true →
      evalDict ctx n1 acc ps = evalDict ctx n2 acc ps
  | _, [], _ => by simp only [evalDict]
  | acc, (k, v) :: rest, h => by
      have hx : (timeFreeB k = true ∧ timeFreeB v = true) ∧ timeFreePairs rest = true := by
        simpa [timeFreePairs, Bool.and_eq_true] using h
      simp only [evalDict, evaluate_clock_irrelevant ctx n1 n2 k hx.1.1]
      exact bindE_congr fun kv => by
        rw [evaluate_clock_irrelevant ctx n1 n2 v hx.1.2]
        exact bindE_congr fun vv =>
          bindE_congr fun acc' =>
            evalDict_clock_irrelevant ctx n1 n2 acc' rest hx.2
termination_by _ ps => (sizeOf ps, 0)

theorem evalKw_clock_irrelevant (ctx : Ctx) (n1 n2 : ℚ) :
    ∀ (ks : List (String × Expr)), timeFreeKw ks = true →
      evalKw ctx n1 ks = evalKw ctx n2 ks
  | [], _ => by simp only [evalKw]
  | (n, e) :: rest, h => by
      have hx : timeFreeB e = true ∧ timeFreeKw rest = true := by
        simpa [timeFreeKw, Bool.and_eq_true] using h
      simp only [evalKw, evaluate_clock_irrelevant ctx n1 n2 e hx.1]
      exact bindE_congr fun v => by
        rw [evalKw_clock_irrelevant ctx n1 n2 rest hx.2]
termination_by ks => (sizeOf ks, 0)

theorem evalChain_clock_irrelevant (ctx : Ctx) (n1 n2 : ℚ) :
    ∀ (res : Bool) (left : Value) (ops : List (CmpOp × Expr)), timeFreeChain ops = true →
      evalChain ctx n1 res left ops = evalChain ctx n2 res left ops
  | _, _, [], _ => by simp only [evalChain]
  | res, left, (op, rhs) :: rest, h => by
      have hx : timeFreeB rhs = true ∧ timeFreeChain rest = true := by
        simpa [timeFreeChain, Bool.and_eq_true] using h
      simp only [evalChain, evaluate_clock_irrelevant ctx n1 n2 rhs hx.1]
      exact bindE_congr fun rv => by
        cases res with
        | false =>
            simp only [Bool.false_eq_true, if_false]
            exact evalChain_clock_irrelevant ctx n1 n2 false rv rest hx.2
        | true =>
            simp only [if_true]
            exact bindE_congr fun b =>
              evalChain_clock_irrelevant ctx n1 n2 b rv rest hx.2
termination_by _ _ ops => (sizeOf ops, 0)

theorem evalAnd_clock_irrelevant (ctx : Ctx) (n1 n2 : ℚ) :
    ∀ (es : List Expr), timeFreeElts es = true →
      evalAnd ctx n1 es = evalAnd ctx n2 es
  | [], _ => by simp only [evalAnd]
  | e :: rest, h => by
      have hx : timeFreeB e = true ∧ timeFreeElts rest = true := by
        simpa [timeFreeElts, Bool.and_eq_true] using h
      simp only [evalAnd, evaluate_clock_irrelevant ctx n1 n2 e hx.1]
      exact bindE_congr fun v => by
        rw [evalAnd_clock_irrelevant ctx n1 n2 rest hx.2]
termination_by es => (sizeOf es, 0)

theorem evalOr_clock_irrelevant (ctx : Ctx) (n1 n2 : ℚ) :
    ∀ (es : List Expr), timeFreeElts es = true →
      evalOr ctx n1 es = evalOr ctx n2 es
  | [], _ => by simp only [evalOr]
  | e :: rest, h => by
      have hx : timeFreeB e = true ∧ timeFreeElts rest = true := by
        simpa [timeFreeElts, Bool.and_eq_true] using h
      simp only [evalOr, evaluate_clock_irrelevant ctx n1 n2 e hx.1]
      exact bindE_congr fun v => by
        rw [evalOr_clock_irrelevant ctx n1 n2 rest hx.2]
termination_by es => (sizeOf es, 0)

end

/-- C9 counterexample.  The claim says two evaluations of the same tree
against equal contexts return the same `Value`; the registered
`timestamp` function returns `datetime.utcnow().timestamp()`, so the
same tree evaluated against the same (empty) context at two ambient
clock instants returns two different values. -/
theorem evaluator_purity_counterexample :
    evaluate [] 0 (.call (.name "timestamp") [] []) = .ok (.num 0) ∧
    evaluate [] 1 (.call (.name "timestamp") [] []) = .ok (.num 1) ∧
    evaluate [] 0 (.call (.name "timestamp") [] []) ≠
      evaluate [] 1 (.call (.name "timestamp") [] []) := by
  refine ⟨?_, ?_, ?_⟩ <;>
    simp [evaluate, evalCore, functions, wrapErr, bindE, evalElts, evalKw, applyDSLFunc,
          bindParams, bindParamsGo, fnTimestamp, List.lookup]

/-- C9 (amended).  The evaluator is pure given the ambient clock: it is
a function of the tree, the context and the clock alone (mutating
nothing — context and the operator/function/keyword tables are values),
and for every tree that calls none of the three clock-reading registry
functions (`now`, `timestamp`, `days_ago`) the result is independent of
the clock, so two evaluations of such a tree against equal contexts
return the same `Value`.  Trees that do call a time function may return
different values at different instants. -/
theorem evaluator_pure_given_clock :
    ∀ (e : Expr) (ctx : Ctx) (n1 n2 : ℚ), timeFreeB e = true →
      evaluate ctx n1 e = evaluate ctx n2 e :=
  fun e ctx n1 n2 h => evaluate_clock_irrelevant ctx n1 n2 e h

/-- C9 witness: a time-free tree (`price + abs(-2) < 10`) evaluates
identically at clocks 0 and 1, the time-freeness hypothesis discharged
by evaluation. -/
theorem evaluator_pure_given_clock_witness :
    timeFreeB (.compare
      (.binOp .add (.name "price")
        (.call (.name "abs") [.unaryOp .neg (.constant (.num 2))] []))
      [(.lt, .constant (.num 10))]) = true ∧
    evaluate [("price", .num 3)] 0 (.compare
      (.binOp .add (.name "price")
        (.call (.name "abs") [.unaryOp .neg (.constant (.num 2))] []))
      [(.lt, .constant (.num 10))]) =
    evaluate [("price", .num 3)] 1 (.compare
      (.binOp .add (.name "price")
        (.call (.name "abs") [.unaryOp .neg (.constant (.num 2))] []))
      [(.lt, .constant (.num 10))]) :=
  ⟨by simp [timeFreeB, timeFreeChain, timeFreeElts, timeFreeKw, timeNames],
   evaluator_pure_given_clock _ [("price", .num 3)] 0 1
     (by simp [timeFreeB, timeFreeChain, timeFreeElts, timeFreeKw, timeNames])⟩
